import Mathlib

/-!
Shallow embedding of the planner core of `app/agents/planner_agent.py`
(test composition, submission evaluation, score comparison and study-plan
generation), together with theorems checking the specification claims.

Modelling conventions:
* Python floats holding percentage scores are modelled as rationals (`ℚ`);
  Python `round(x, 2)` (round-half-to-even) is modelled by `round2`.
* Python dicts are modelled as insertion-ordered association lists with
  unique keys; `d[k] = v` is `dictInsert`, `d.get(k, default)` is `dictGetD`.
* MongoDB collections, `random` draws and the remote LLM endpoint are
  explicit environment parameters; a raised Python exception is an
  `Except.error` (or `Option.none` for helpers whose errors are caught).
* A dict key that the code never writes (for example `correct_answer` in a
  composed test) is modelled as an `Option` field holding `none`.
* Python `x or default` on values that are `None`-or-present is modelled by
  `Option.getD`; the extra falsiness of `""`/`{}` is not distinguished.
-/

namespace Planner

/-! ### Decimal digits, `str(n)` and `f"{n:04d}"` -/

/-- Little-endian decimal digits of `n` (empty for `0`), with explicit fuel
so that the definition is structural and reduces inside `decide`. -/
def digitsAux : ℕ → ℕ → List ℕ
  | 0, _ => []
  | _ + 1, 0 => []
  | fuel + 1, n + 1 => ((n + 1) % 10) :: digitsAux fuel ((n + 1) / 10)

/-- Little-endian decimal digits of `n` (empty for `0`). -/
def natDigitsLE (n : ℕ) : List ℕ := digitsAux n n

/-- Big-endian decimal digits of `n` (empty for `0`). -/
def natDigitsBE (n : ℕ) : List ℕ := (natDigitsLE n).reverse

/-- The value encoded by a big-endian decimal digit list. -/
def digitsVal (l : List ℕ) : ℕ := l.foldl (fun a d => 10 * a + d) 0

theorem digitsAux_foldr (fuel : ℕ) :
    ∀ n, n ≤ fuel → (digitsAux fuel n).foldr (fun d a => 10 * a + d) 0 = n := by
  induction fuel with
  | zero => intro n hn; interval_cases n; simp [digitsAux]
  | succ fuel ih =>
    intro n hn
    match n with
    | 0 => simp [digitsAux]
    | m + 1 =>
      have hdiv : (m + 1) / 10 ≤ fuel := by
        have : (m + 1) / 10 < m + 1 := Nat.div_lt_self (Nat.succ_pos m) (by norm_num)
        omega
      simp only [digitsAux, List.foldr_cons]
      rw [ih _ hdiv]
      omega

theorem digitsVal_natDigitsBE (n : ℕ) : digitsVal (natDigitsBE n) = n := by
  unfold digitsVal natDigitsBE natDigitsLE
  rw [List.foldl_reverse]
  exact digitsAux_foldr n n le_rfl

theorem digitsAux_lt_ten (fuel : ℕ) : ∀ n, ∀ d ∈ digitsAux fuel n, d < 10 := by
  induction fuel with
  | zero => intro n d hd; simp [digitsAux] at hd
  | succ fuel ih =>
    intro n d hd
    match n with
    | 0 => simp [digitsAux] at hd
    | m + 1 =>
      simp only [digitsAux, List.mem_cons] at hd
      rcases hd with h | h
      · subst h; exact Nat.mod_lt _ (by norm_num)
      · exact ih _ _ h

theorem natDigitsBE_lt_ten (n : ℕ) : ∀ d ∈ natDigitsBE n, d < 10 := by
  intro d hd
  exact digitsAux_lt_ten n n d (List.mem_reverse.mp hd)

theorem digitsVal_replicate_zero_append (k : ℕ) (l : List ℕ) :
    digitsVal (List.replicate k 0 ++ l) = digitsVal l := by
  induction k with
  | zero => simp
  | succ k ih => simpa [digitsVal, List.replicate_succ] using ih

/-- Digit list of Python `f"{n:04d}"` for `n ≥ 0`: zero-padded to width 4. -/
def pad4Digits (n : ℕ) : List ℕ :=
  List.replicate (4 - (natDigitsBE n).length) 0 ++ natDigitsBE n

theorem digitsVal_pad4Digits (n : ℕ) : digitsVal (pad4Digits n) = n := by
  unfold pad4Digits
  rw [digitsVal_replicate_zero_append, digitsVal_natDigitsBE]

theorem pad4Digits_lt_ten (n : ℕ) : ∀ d ∈ pad4Digits n, d < 10 := by
  intro d hd
  rcases List.mem_append.mp hd with h | h
  · have := List.eq_of_mem_replicate h; omega
  · exact natDigitsBE_lt_ten n d h

theorem pad4Digits_length (n : ℕ) : 4 ≤ (pad4Digits n).length := by
  unfold pad4Digits
  rw [List.length_append, List.length_replicate]
  omega

theorem pad4Digits_ne_nil (n : ℕ) : pad4Digits n ≠ [] := by
  intro h
  have h4 := pad4Digits_length n
  rw [h, List.length_nil] at h4
  omega

/-- Python `f"{n:04d}"` for a natural `n`. -/
def pad4 (n : ℕ) : String := String.mk ((pad4Digits n).map Nat.digitChar)

/-- Python `str(n)` for a natural `n`. -/
def natToStr (n : ℕ) : String :=
  if n = 0 then "0" else String.mk ((natDigitsBE n).map Nat.digitChar)

/-- Python `int(s)` restricted to non-empty all-digit strings, the only
shape of index the planner ever encodes into a fallback identifier. -/
def parseDigits : List Char → Option ℕ
  | [] => none
  | cs =>
    if cs.all Char.isDigit then
      some (cs.foldl (fun a c => 10 * a + (c.toNat - 48)) 0)
    else none

theorem digitChar_isDigit : ∀ d, d < 10 → (Nat.digitChar d).isDigit = true := by decide

theorem digitChar_toNat : ∀ d, d < 10 → (Nat.digitChar d).toNat - 48 = d := by decide

theorem parseDigits_map_digitChar (l : List ℕ) (hne : l ≠ []) (hlt : ∀ d ∈ l, d < 10) :
    parseDigits (l.map Nat.digitChar) = some (digitsVal l) := by
  obtain ⟨d, rest, rfl⟩ : ∃ d rest, l = d :: rest := by
    cases l with
    | nil => exact absurd rfl hne
    | cons d rest => exact ⟨d, rest, rfl⟩
  have hall : ((d :: rest).map Nat.digitChar).all Char.isDigit = true := by
    rw [List.all_eq_true]
    intro c hc
    rcases List.mem_map.mp hc with ⟨e, he, rfl⟩
    exact digitChar_isDigit e (hlt e he)
  have hfold : ((d :: rest).map Nat.digitChar).foldl (fun a c => 10 * a + (c.toNat - 48)) 0
      = (d :: rest).foldl (fun a e => 10 * a + e) 0 := by
    rw [List.foldl_map]
    exact List.foldl_ext _ _ 0 (fun a e he => by rw [digitChar_toNat e (hlt e he)])
  simp only [List.map_cons] at hall hfold ⊢
  simp only [parseDigits, hall, if_true, digitsVal]
  exact congrArg some hfold

theorem parseDigits_pad4 (n : ℕ) :
    parseDigits ((pad4Digits n).map Nat.digitChar) = some n := by
  rw [parseDigits_map_digitChar _ (pad4Digits_ne_nil n) (pad4Digits_lt_ten n),
    digitsVal_pad4Digits]

/-! ### Character-list string helpers (`startswith`, `split(sep, 2)`, …) -/

/-- Split a character list at the first occurrence of `c`
(one step of Python `str.split(c, maxsplit)`). -/
def breakFirst (c : Char) : List Char → Option (List Char × List Char)
  | [] => none
  | x :: xs =>
    if x = c then some ([], xs)
    else
      match breakFirst c xs with
      | some (a, b) => some (x :: a, b)
      | none => none

/-- Python `s.split(c, maxsplit)` on character lists. -/
def splitMax (c : Char) : ℕ → List Char → List (List Char)
  | 0, l => [l]
  | k + 1, l =>
    match breakFirst c l with
    | none => [l]
    | some (a, b) => a :: splitMax c k b

/-- Python `s.startswith(p)` on character lists. -/
def isPrefixList : List Char → List Char → Bool
  | [], _ => true
  | _ :: _, [] => false
  | x :: xs, y :: ys => x = y && isPrefixList xs ys

theorem isPrefixList_append (a b : List Char) : isPrefixList a (a ++ b) = true := by
  induction a with
  | nil => rfl
  | cons x xs ih => simp [isPrefixList, ih]

theorem breakFirst_not_mem {c : Char} {l : List Char} (h : c ∉ l) :
    breakFirst c l = none := by
  induction l with
  | nil => rfl
  | cons x xs ih =>
    simp only [List.mem_cons, not_or] at h
    have hx : ¬(x = c) := fun hx => h.1 hx.symm
    simp only [breakFirst, if_neg hx, ih h.2]

theorem breakFirst_append {c : Char} {a : List Char} (b : List Char) (h : c ∉ a) :
    breakFirst c (a ++ c :: b) = some (a, b) := by
  induction a with
  | nil => simp [breakFirst]
  | cons x xs ih =>
    simp only [List.mem_cons, not_or] at h
    have hx : ¬(x = c) := fun hx => h.1 hx.symm
    simp only [List.cons_append, breakFirst, if_neg hx, List.append_eq, ih h.2]

/-- Python string whitespace strip on character lists. -/
def stripChars (l : List Char) : List Char :=
  ((l.dropWhile Char.isWhitespace).reverse.dropWhile Char.isWhitespace).reverse

/-- Python `s.strip()`. -/
def pyStrip (s : String) : String := String.mk (stripChars s.data)

/-- Python `s.upper()`. -/
def pyUpper (s : String) : String := String.mk (s.data.map Char.toUpper)

/-- Python `s.lower()`. -/
def pyLower (s : String) : String := String.mk (s.data.map Char.toLower)

/-- Python `s.title()` on character lists: uppercase a letter that follows a
non-letter, lowercase a letter that follows a letter. -/
def titleChars : Bool → List Char → List Char
  | _, [] => []
  | prevAlpha, c :: cs =>
    (if prevAlpha then c.toLower else c.toUpper) :: titleChars c.isAlpha cs

/-- Python `s.title()`. -/
def pyTitle (s : String) : String := String.mk (titleChars false s.data)

/-! ### Python dicts as insertion-ordered association lists -/

/-- The entries of a Python dict, in insertion order. -/
abbrev Dict (α : Type) := List (String × α)

/-- `d[k] = v`: overwrite in place, else append. -/
def dictInsert {α : Type} (m : Dict α) (k : String) (v : α) : Dict α :=
  if (m.lookup k).isSome then m.map (fun p => if p.1 = k then (k, v) else p)
  else m ++ [(k, v)]

/-- `d.get(k, default)`. -/
def dictGetD {α : Type} (m : Dict α) (k : String) (d : α) : α := (m.lookup k).getD d

/-- `list(d.keys())`. -/
def dictKeys {α : Type} (m : Dict α) : List String := m.map Prod.fst

theorem dictInsert_ne_nil {α : Type} (m : Dict α) (k : String) (v : α) :
    dictInsert m k v ≠ [] := by
  unfold dictInsert
  split
  · rename_i h
    intro hm
    rw [List.map_eq_nil_iff] at hm
    subst hm
    simp [List.lookup] at h
  · simp

/-! ### Python `round` (round half to even) -/

/-- Python `round(q)`: round half to even. -/
def rhe (q : ℚ) : ℤ :=
  if q - (⌊q⌋ : ℚ) < 1 / 2 then ⌊q⌋
  else if 1 / 2 < q - (⌊q⌋ : ℚ) then ⌊q⌋ + 1
  else if ⌊q⌋ % 2 = 0 then ⌊q⌋ else ⌊q⌋ + 1

/-- Python `round(q, 2)`. -/
def round2 (q : ℚ) : ℚ := (rhe (q * 100) : ℚ) / 100

theorem rhe_intCast (z : ℤ) : rhe (z : ℚ) = z := by
  unfold rhe
  rw [Int.floor_intCast, sub_self]
  norm_num

theorem rhe_neg (q : ℚ) : rhe (-q) = -rhe q := by
  by_cases hint : Int.fract q = 0
  · have hq : q = ((⌊q⌋ : ℤ) : ℚ) := by
      have e2 : q - (⌊q⌋ : ℚ) = Int.fract q := Int.self_sub_floor q
      rw [hint] at e2
      linarith
    rw [hq, ← Int.cast_neg, rhe_intCast, rhe_intCast]
  · have h0 : 0 < Int.fract q := lt_of_le_of_ne (Int.fract_nonneg q) (Ne.symm hint)
    have h1 : Int.fract q < 1 := Int.fract_lt_one q
    have hfn : Int.fract (-q) = 1 - Int.fract q := Int.fract_neg hint
    have e2 : q - (⌊q⌋ : ℚ) = Int.fract q := Int.self_sub_floor q
    have hfloorneg : ⌊-q⌋ = -⌊q⌋ - 1 := by
      have e1 : -q - (⌊-q⌋ : ℚ) = Int.fract (-q) := Int.self_sub_floor (-q)
      rw [hfn] at e1
      have : (⌊-q⌋ : ℚ) = ((-⌊q⌋ - 1 : ℤ) : ℚ) := by push_cast; linarith
      exact_mod_cast this
    have eneg : -q - (⌊-q⌋ : ℚ) = 1 - Int.fract q := by
      rw [hfloorneg]
      push_cast
      linarith
    unfold rhe
    rw [eneg, e2, hfloorneg]
    split_ifs <;> first | omega | linarith

theorem round2_neg (q : ℚ) : round2 (-q) = -round2 q := by
  unfold round2
  rw [neg_mul, rhe_neg]
  push_cast
  ring

theorem round2_intCast (z : ℤ) : round2 ((z : ℚ)) = (z : ℚ) := by
  unfold round2
  have h : (z : ℚ) * 100 = ((z * 100 : ℤ) : ℚ) := by push_cast; ring
  rw [h, rhe_intCast]
  push_cast
  ring

/-! ### Static configuration tables of `planner_agent.py` -/

/-- The classification threshold table `THRESHOLDS`. -/
def THRESHOLDS : List (ℚ × ℚ × String) :=
  [(0, 40, "Critical Weak"),
   (40, 60, "Weak"),
   (60, 75, "Average"),
   (75, 90, "Strong"),
   (90, 100, "Excellent")]

/-- Per-section static configuration (`SECTION_CONFIG`): canonical key,
display label, accepted alias spellings. -/
structure SectionMeta where
  label : String
  aliases : List String
deriving DecidableEq

def SECTION_CONFIG : Dict SectionMeta :=
  [("polity", ⟨"Polity", ["Polity", "polity"]⟩),
   ("economy", ⟨"Economy", ["Economy", "economy", "Economic"]⟩),
   ("history", ⟨"History", ["History", "history"]⟩),
   ("geography", ⟨"Geography", ["Geography", "geography"]⟩),
   ("environment", ⟨"Environment", ["Environment", "environment", "Ecology"]⟩),
   ("scienceTech", ⟨"Science & Tech",
      ["ScienceTech", "scienceTech", "Science", "Technology", "Science & Tech"]⟩),
   ("currentAffairs", ⟨"Current Affairs",
      ["CurrentAffairs", "Current Affairs", "currentAffairs"]⟩)]

def SECTION_ORDER : List String := SECTION_CONFIG.map Prod.fst

/-- `SECTION_CONFIG[key]["label"]`; total because it is only ever applied to
keys of `SECTION_CONFIG` (a missing key would be a Python `KeyError`). -/
def sectionLabel (key : String) : String :=
  ((SECTION_CONFIG.lookup key).map SectionMeta.label).getD key

def DEFAULT_BOOKLIST : Dict (List String) :=
  [("Polity", ["Indian Polity — M. Laxmikanth", "NCERT Polity (Class 11-12)"]),
   ("Economy", ["Indian Economy — Ramesh Singh", "NCERT Economics"]),
   ("History", ["Spectrum Modern India", "NCERT History"]),
   ("Geography", ["Oxford School Atlas", "NCERT Geography"]),
   ("Environment", ["Shankar IAS Environment", "NCERT Biology (relevant)"]),
   ("Science & Tech", ["NCERT Science", "Current Affairs summaries"]),
   ("Current Affairs", ["PIB releases", "Rajya Sabha TV Debates"])]

/-- One entry of `MOCK_SECTION_BLUEPRINTS`. -/
structure Blueprint where
  question : String
  topic : String
  difficulty : String
  options : List (String × String)
  answer : String
deriving DecidableEq

/-- The deterministic fallback question templates `MOCK_SECTION_BLUEPRINTS`. -/
def MOCK_SECTION_BLUEPRINTS : Dict (List Blueprint) :=
  [("polity",
    [⟨"Which Article empowers the Supreme Court to issue writs for the enforcement of Fundamental Rights?",
      "Fundamental Rights", "Medium",
      [("A", "Article 32"), ("B", "Article 21"), ("C", "Article 356"), ("D", "Article 143")], "A"⟩,
     ⟨"The concept of judicial review in the Indian Constitution is borrowed from which country?",
      "Judiciary", "Easy",
      [("A", "United Kingdom"), ("B", "United States"), ("C", "Canada"), ("D", "Ireland")], "B"⟩,
     ⟨"Who presides over the joint sitting of Parliament?",
      "Parliament", "Easy",
      [("A", "President of India"), ("B", "Speaker of Lok Sabha"), ("C", "Chairman of Rajya Sabha"), ("D", "Prime Minister")], "B"⟩,
     ⟨"Which schedule contains the languages recognized by the Constitution?",
      "Schedules of Constitution", "Medium",
      [("A", "Sixth Schedule"), ("B", "Seventh Schedule"), ("C", "Eighth Schedule"), ("D", "Tenth Schedule")], "C"⟩]),
   ("economy",
    [⟨"Which index is released by the National Statistical Office to track retail inflation?",
      "Inflation", "Medium",
      [("A", "Wholesale Price Index"), ("B", "Consumer Price Index"), ("C", "Index of Industrial Production"), ("D", "Purchasing Managers Index")], "B"⟩,
     ⟨"Which body recommends the distribution of tax revenues between the Union and the States?",
      "Public Finance", "Easy",
      [("A", "Finance Commission"), ("B", "GST Council"), ("C", "NITI Aayog"), ("D", "RBI")], "A"⟩,
     ⟨"MSP for crops in India is recommended by which commission?",
      "Agriculture", "Easy",
      [("A", "Finance Commission"), ("B", "Tariff Commission"), ("C", "Commission for Agricultural Costs and Prices"), ("D", "NABARD")], "C"⟩,
     ⟨"Which of the following is NOT a component of the balance of payments?",
      "External Sector", "Medium",
      [("A", "Current Account"), ("B", "Capital Account"), ("C", "Financial Account"), ("D", "Revenue Account")], "D"⟩]),
   ("history",
    [⟨"Which of the following was NOT a feature of the Indus Valley Civilization?",
      "Ancient India", "Medium",
      [("A", "Grid pattern town planning"), ("B", "Use of iron tools"), ("C", "Standardized weights"), ("D", "Advanced drainage")], "B"⟩,
     ⟨"Who among the following founded the Prarthana Samaj?",
      "Modern India", "Easy",
      [("A", "Atmaram Pandurang"), ("B", "M.G. Ranade"), ("C", "Swami Dayanand"), ("D", "Keshab Chandra Sen")], "A"⟩,
     ⟨"Which Governor-General introduced the Doctrine of Lapse?",
      "British Policies", "Easy",
      [("A", "Lord Dalhousie"), ("B", "Lord Wellesley"), ("C", "Lord Hastings"), ("D", "Lord Bentick")], "A"⟩,
     ⟨"The Battle of Plassey was fought in which year?",
      "Modern India", "Medium",
      [("A", "1748"), ("B", "1757"), ("C", "1764"), ("D", "1782")], "B"⟩]),
   ("geography",
    [⟨"Which of the following rivers is a tributary of the Brahmaputra?",
      "Indian Rivers", "Medium",
      [("A", "Beas"), ("B", "Lohit"), ("C", "Chambal"), ("D", "Son")], "B"⟩,
     ⟨"Black cotton soil is ideal for the cultivation of which crop?",
      "Soils", "Easy",
      [("A", "Rice"), ("B", "Tea"), ("C", "Cotton"), ("D", "Wheat")], "C"⟩,
     ⟨"The Tropic of Cancer passes through how many Indian states?",
      "Location Based", "Medium",
      [("A", "6"), ("B", "8"), ("C", "9"), ("D", "10")], "C"⟩,
     ⟨"Which plateau is known as the \"Mineral Storehouse\" of India?",
      "Physiography", "Easy",
      [("A", "Deccan Plateau"), ("B", "Chota Nagpur Plateau"), ("C", "Malwa Plateau"), ("D", "Bastar Plateau")], "B"⟩]),
   ("environment",
    [⟨"Which Indian Act provides the legal basis for declaring Eco-sensitive Zones?",
      "Conservation", "Medium",
      [("A", "Forest Conservation Act, 1980"), ("B", "Wildlife Protection Act, 1972"), ("C", "Biological Diversity Act, 2002"), ("D", "Environment Protection Act, 1986")], "B"⟩,
     ⟨"Biosphere Reserves aim to conserve which level of biodiversity?",
      "Biodiversity", "Easy",
      [("A", "Genetic"), ("B", "Species"), ("C", "Ecosystem"), ("D", "All of the above")], "D"⟩,
     ⟨"Which gas has the highest global warming potential among the following?",
      "Climate Change", "Medium",
      [("A", "Carbon dioxide"), ("B", "Methane"), ("C", "Nitrous oxide"), ("D", "Sulphur hexafluoride")], "D"⟩,
     ⟨"Project Tiger was launched in which year?",
      "Schemes", "Easy",
      [("A", "1969"), ("B", "1973"), ("C", "1985"), ("D", "1992")], "B"⟩]),
   ("scienceTech",
    [⟨"Which of the following is a reusable launch vehicle developed by ISRO?",
      "Space", "Medium",
      [("A", "PSLV"), ("B", "GSLV Mk III"), ("C", "RLV-TD"), ("D", "ASLV")], "C"⟩,
     ⟨"CRISPR technology is primarily used for what purpose?",
      "Biotechnology", "Easy",
      [("A", "Protein folding"), ("B", "Genome editing"), ("C", "RNA sequencing"), ("D", "Drug delivery")], "B"⟩,
     ⟨"Which mission aims to study the Sun from L1 point?",
      "Space", "Medium",
      [("A", "Chandrayaan-3"), ("B", "Mangalyaan"), ("C", "Aditya-L1"), ("D", "Gaganyaan")], "C"⟩,
     ⟨"Li-Fi technology primarily uses which wave for data transmission?",
      "Communication", "Easy",
      [("A", "Radio waves"), ("B", "Microwaves"), ("C", "Infrared/Visible light"), ("D", "Gamma rays")], "C"⟩]),
   ("currentAffairs",
    [⟨"The \x27PM-PRANAM\x27 scheme is related to which of the following?",
      "Government Schemes", "Medium",
      [("A", "Crop insurance"), ("B", "Fertilizer usage"), ("C", "Rural housing"), ("D", "Skill development")], "B"⟩,
     ⟨"Which organization publishes the Global Gender Gap Report?",
      "Reports", "Easy",
      [("A", "UNDP"), ("B", "World Economic Forum"), ("C", "World Bank"), ("D", "IMF")], "B"⟩,
     ⟨"\x27PM MITRA\x27 parks are associated with which sector?",
      "Industries", "Easy",
      [("A", "Electronics"), ("B", "Textiles"), ("C", "Automobile"), ("D", "Pharmaceuticals")], "B"⟩,
     ⟨"India recently signed the Artemis Accords. These are related to which domain?",
      "International", "Medium",
      [("A", "Space exploration"), ("B", "Climate finance"), ("C", "Nuclear disarmament"), ("D", "Cyber security")], "A"⟩])]

/-! ### `classify_score` -/

/-- The loop body of `classify_score`. -/
def classifyAux (score : ℚ) : List (ℚ × ℚ × String) → String
  | [] => "Unknown"
  | (lo, hi, label) :: rest =>
    if lo ≤ score ∧ score ≤ hi then label else classifyAux score rest

/-- `classify_score(score)`. -/
def classify_score (score : ℚ) : String := classifyAux score THRESHOLDS

/-! ### Question payloads and the deterministic fallback bank -/

/-- A question payload as assembled by the planner (DB path, mock path, or
grading path).  A dict key the code does not write is a `none` field; in
particular `correct_answer` is `none` exactly when the payload was built
with the answer stripped. -/
structure TestQuestion where
  question_id : String
  sectionKey : String
  section_label : String
  subject : Option String
  topic : Option String
  difficulty : Option String
  question : Option String
  options : List (String × String)
  correct_answer : Option String
deriving DecidableEq

/-- `blueprints[index % len(blueprints)]` (the default is never reached:
callers check that the blueprint list is non-empty). -/
def blueprintAt (bps : List Blueprint) (index : ℕ) : Blueprint :=
  bps.getD (index % bps.length) ⟨"", "", "", [], ""⟩

/-- Body of `_mock_question_document` once the blueprint list and the
section label have been resolved. -/
def mockDocCore (sectionKey label : String) (bps : List Blueprint) (index : ℕ)
    (includeAnswer : Bool) : TestQuestion :=
  let bp := blueprintAt bps index
  let variant := index / bps.length
  let questionText :=
    if variant ≠ 0 then bp.question ++ " (Variant " ++ natToStr (variant + 1) ++ ")"
    else bp.question
  { question_id := "mock-" ++ sectionKey ++ "-" ++ pad4 index,
    sectionKey := sectionKey,
    section_label := label,
    subject := some label,
    topic := some bp.topic,
    difficulty := some bp.difficulty,
    question := some questionText,
    options := bp.options,
    correct_answer := if includeAnswer then some bp.answer else none }

/-- `_mock_question_document(section, index, include_answer=...)`; `none`
models the `ValueError` raised when no blueprints are configured. -/
def mockQuestionDocument (sectionKey : String) (index : ℕ) (includeAnswer : Bool) :
    Option TestQuestion :=
  match MOCK_SECTION_BLUEPRINTS.lookup sectionKey with
  | none => none
  | some bps =>
    if bps.isEmpty then none
    else some (mockDocCore sectionKey (sectionLabel sectionKey) bps index includeAnswer)

/-- The synthetic identifier `f"mock-{section}-{index:04d}"`. -/
def mockQid (sectionKey : String) (index : ℕ) : String :=
  "mock-" ++ sectionKey ++ "-" ++ pad4 index

/-- `_mock_question_from_id(qid)`.  The index parse models Python `int` on
the digit strings the composer emits (the claims only concern non-negative
indices). -/
def mockQuestionFromId (qid : String) : Option TestQuestion :=
  if isPrefixList "mock-".data qid.data then
    match splitMax '-' 2 qid.data with
    | [_, sec, idxStr] =>
      match parseDigits idxStr with
      | some index => mockQuestionDocument (String.mk sec) index true
      | none => none
    | _ => none
  else none

theorem mockQid_data (s : String) (i : ℕ) :
    (mockQid s i).data =
      ['m', 'o', 'c', 'k'] ++ '-' :: (s.data ++ '-' :: ((pad4Digits i).map Nat.digitChar)) := by
  have hm : ("mock-" : String).data = ['m', 'o', 'c', 'k', '-'] := rfl
  have hd : ("-" : String).data = ['-'] := rfl
  have hp : (pad4 i).data = (pad4Digits i).map Nat.digitChar := rfl
  simp [mockQid, String.data_append, hm, hd, hp]

theorem mockQuestionFromId_mockQid (s : String) (hdash : '-' ∉ s.data) (i : ℕ) :
    mockQuestionFromId (mockQid s i) = mockQuestionDocument s i true := by
  have hpre : isPrefixList ("mock-" : String).data (mockQid s i).data = true := by
    rw [mockQid_data]
    have harr : ['m', 'o', 'c', 'k'] ++ '-' :: (s.data ++ '-' :: ((pad4Digits i).map Nat.digitChar))
        = ("mock-" : String).data ++ (s.data ++ '-' :: ((pad4Digits i).map Nat.digitChar)) := by
      simp
    rw [harr]
    exact isPrefixList_append _ _
  have hmock : '-' ∉ (['m', 'o', 'c', 'k'] : List Char) := by decide
  have hsplit : splitMax '-' 2 (mockQid s i).data =
      [['m', 'o', 'c', 'k'], s.data, (pad4Digits i).map Nat.digitChar] := by
    rw [mockQid_data]
    simp only [splitMax, breakFirst_append _ hmock, breakFirst_append _ hdash]
  unfold mockQuestionFromId
  rw [if_pos hpre, hsplit]
  simp only [parseDigits_pad4]

theorem mock_roundtrip_core (s : String) (i : ℕ) (hdash : '-' ∉ s.data)
    (bps : List Blueprint) (hlook : MOCK_SECTION_BLUEPRINTS.lookup s = some bps)
    (hne : bps ≠ []) :
    mockQuestionFromId (mockQid s i) = mockQuestionDocument s i true ∧
    ∃ composed withAnswer,
      mockQuestionDocument s i false = some composed ∧
      mockQuestionDocument s i true = some withAnswer ∧
      withAnswer.question = composed.question ∧
      withAnswer.options = composed.options ∧
      withAnswer.correct_answer = some (blueprintAt bps i).answer := by
  have hempty : ¬(bps.isEmpty = true) := by simpa using hne
  refine ⟨mockQuestionFromId_mockQid s hdash i, ?_⟩
  refine ⟨mockDocCore s (sectionLabel s) bps i false,
    mockDocCore s (sectionLabel s) bps i true, ?_, ?_, rfl, rfl, rfl⟩
  · unfold mockQuestionDocument
    rw [hlook]
    simp [hempty]
  · unfold mockQuestionDocument
    rw [hlook]
    simp [hempty]

theorem mock_section_key_facts (s : String) (hs : s ∈ dictKeys MOCK_SECTION_BLUEPRINTS) :
    '-' ∉ s.data ∧ ∃ bps, MOCK_SECTION_BLUEPRINTS.lookup s = some bps ∧ bps ≠ [] := by
  simp only [dictKeys, MOCK_SECTION_BLUEPRINTS, List.map_cons, List.map_nil,
    List.mem_cons, List.not_mem_nil, or_false] at hs
  rcases hs with rfl | rfl | rfl | rfl | rfl | rfl | rfl
  all_goals exact ⟨by decide, _, rfl, by simp⟩

/-- C4: reconstructing a fallback question from its synthetic identifier
(`mock-<section>-<index>`, built by `mockQid`) with `_mock_question_from_id`
yields exactly the document `_mock_question_document` produces for that
`(section, index)` pair — in particular the same prompt text, the same
options mapping, and the blueprint's correct answer used at composition
time. -/
theorem C4_mock_identifier_roundtrip (s : String) (i : ℕ)
    (hs : s ∈ dictKeys MOCK_SECTION_BLUEPRINTS) :
    mockQuestionFromId (mockQid s i) = mockQuestionDocument s i true ∧
    ∃ composed withAnswer,
      mockQuestionDocument s i false = some composed ∧
      mockQuestionDocument s i true = some withAnswer ∧
      withAnswer.question = composed.question ∧
      withAnswer.options = composed.options ∧
      (∃ bps, MOCK_SECTION_BLUEPRINTS.lookup s = some bps ∧
        withAnswer.correct_answer = some (blueprintAt bps i).answer) := by
  obtain ⟨hdash, bps, hlook, hne⟩ := mock_section_key_facts s hs
  obtain ⟨h1, composed, withAnswer, h2, h3, h4, h5, h6⟩ :=
    mock_roundtrip_core s i hdash bps hlook hne
  exact ⟨h1, composed, withAnswer, h2, h3, h4, h5, bps, hlook, h6⟩

theorem C4_mock_identifier_roundtrip_witness :
    "polity" ∈ dictKeys MOCK_SECTION_BLUEPRINTS ∧
    mockQuestionFromId (mockQid "polity" 7) = mockQuestionDocument "polity" 7 true := by
  have hmem : "polity" ∈ dictKeys MOCK_SECTION_BLUEPRINTS := by
    simp [dictKeys, MOCK_SECTION_BLUEPRINTS]
  exact ⟨hmem, (C4_mock_identifier_roundtrip "polity" 7 hmem).1⟩

theorem mock_variant_core (s : String) (i : ℕ) (ia : Bool) (bps : List Blueprint)
    (hlook : MOCK_SECTION_BLUEPRINTS.lookup s = some bps) (hne : bps ≠ []) :
    ∃ doc, mockQuestionDocument s i ia = some doc ∧
      doc.topic = some (blueprintAt bps i).topic ∧
      doc.options = (blueprintAt bps i).options ∧
      (i < bps.length → doc.question = some (blueprintAt bps i).question) ∧
      (bps.length ≤ i → doc.question =
        some ((blueprintAt bps i).question ++ " (Variant " ++ natToStr (i / bps.length + 1) ++ ")")) := by
  have hempty : ¬(bps.isEmpty = true) := by simpa using hne
  refine ⟨mockDocCore s (sectionLabel s) bps i ia, ?_, rfl, rfl, ?_, ?_⟩
  · unfold mockQuestionDocument
    rw [hlook]
    simp [hempty]
  · intro hlt
    have hv : i / bps.length = 0 := Nat.div_eq_of_lt hlt
    simp [mockDocCore, hv]
  · intro hge
    have hpos : 0 < bps.length := List.length_pos.mpr hne
    have hv : i / bps.length ≠ 0 := by
      have := (Nat.one_le_div_iff hpos).mpr hge
      omega
    simp [mockDocCore, hv]

/-- C9 (amended): in the fallback composition path the question for
`(section, index)` uses the blueprint at `index mod blueprintCount`; for
`index < blueprintCount` the prompt carries no suffix, and whenever the
blueprint is reused (`index ≥ blueprintCount`) the prompt carries a
"(Variant k)" suffix with `k = index / blueprintCount + 1` (the code prints
`variant + 1`, not `variant`). -/
theorem C9_mock_variant_suffix (s : String) (i : ℕ) (ia : Bool)
    (hs : s ∈ dictKeys MOCK_SECTION_BLUEPRINTS) :
    ∃ bps doc,
      MOCK_SECTION_BLUEPRINTS.lookup s = some bps ∧
      mockQuestionDocument s i ia = some doc ∧
      doc.topic = some (blueprintAt bps i).topic ∧
      doc.options = (blueprintAt bps i).options ∧
      (i < bps.length → doc.question = some (blueprintAt bps i).question) ∧
      (bps.length ≤ i → doc.question =
        some ((blueprintAt bps i).question ++ " (Variant " ++ natToStr (i / bps.length + 1) ++ ")")) := by
  obtain ⟨_, bps, hlook, hne⟩ := mock_section_key_facts s hs
  obtain ⟨doc, h⟩ := mock_variant_core s i ia bps hlook hne
  exact ⟨bps, doc, hlook, h⟩

theorem C9_mock_variant_suffix_witness :
    "history" ∈ dictKeys MOCK_SECTION_BLUEPRINTS ∧
    ∃ bps doc,
      MOCK_SECTION_BLUEPRINTS.lookup "history" = some bps ∧
      mockQuestionDocument "history" 1 false = some doc ∧
      doc.topic = some (blueprintAt bps 1).topic ∧
      doc.options = (blueprintAt bps 1).options ∧
      (1 < bps.length → doc.question = some (blueprintAt bps 1).question) ∧
      (bps.length ≤ 1 → doc.question =
        some ((blueprintAt bps 1).question ++ " (Variant " ++ natToStr (1 / bps.length + 1) ++ ")")) := by
  have hmem : "history" ∈ dictKeys MOCK_SECTION_BLUEPRINTS := by
    simp [dictKeys, MOCK_SECTION_BLUEPRINTS]
  exact ⟨hmem, C9_mock_variant_suffix "history" 1 false hmem⟩

/-- C9 counterexample: at section `polity` and index 4 (= the blueprint
count) the code emits suffix "(Variant 2)" (`variant + 1`), not the
"(Variant 1)" that `k = index / blueprintCount` from the claim predicts. -/
theorem C9_mock_variant_counterexample :
    ∃ doc, mockQuestionDocument "polity" 4 false = some doc ∧
      doc.question = some ("Which Article empowers the Supreme Court to issue writs for the enforcement of Fundamental Rights? (Variant 2)") ∧
      ¬ doc.question = some ("Which Article empowers the Supreme Court to issue writs for the enforcement of Fundamental Rights? (Variant 1)") :=
  ⟨_, rfl, by decide, by decide⟩

/-- C1 counterexample: the threshold loop tests `lo <= score <= hi` with
BOTH ends inclusive and the first row wins, so a score of exactly 40.0
matches the row `(0, 40, "Critical Weak")` and classifies as
"Critical Weak", not "Weak" as the claim states. -/
theorem C1_classify_boundary_counterexample :
    classify_score 40 = "Critical Weak" ∧ ¬ classify_score 40 = "Weak" := by
  have h40 : classify_score 40 = "Critical Weak" := by
    norm_num [classify_score, classifyAux, THRESHOLDS]
  refine ⟨h40, ?_⟩
  rw [h40]
  decide

/-- C1 (amended): `classify_score` buckets any score in [0,100] by the fixed
table with BOTH boundaries inclusive and the first matching row winning, so
every boundary value falls in the LOWER bucket: [0,40] → Critical Weak,
(40,60] → Weak, (60,75] → Average, (75,90] → Strong, (90,100] → Excellent;
in particular 40.0 and 39.99 classify as "Critical Weak" and 100.0 as
"Excellent". -/
theorem C1_classify_buckets (score : ℚ) (h0 : 0 ≤ score) (h1 : score ≤ 100) :
    classify_score score =
      (if score ≤ 40 then "Critical Weak"
       else if score ≤ 60 then "Weak"
       else if score ≤ 75 then "Average"
       else if score ≤ 90 then "Strong"
       else "Excellent") ∧
    classify_score 40 = "Critical Weak" ∧
    classify_score 39.99 = "Critical Weak" ∧
    classify_score 100 = "Excellent" := by
  refine ⟨?_, by norm_num [classify_score, classifyAux, THRESHOLDS],
    by norm_num [classify_score, classifyAux, THRESHOLDS],
    by norm_num [classify_score, classifyAux, THRESHOLDS]⟩
  simp only [classify_score, THRESHOLDS, classifyAux]
  by_cases c1 : score ≤ 40
  · rw [if_pos (⟨h0, c1⟩ : (0 : ℚ) ≤ score ∧ score ≤ 40), if_pos c1]
  · by_cases c2 : score ≤ 60
    · have h40 : (40 : ℚ) ≤ score := le_of_lt (not_le.mp c1)
      rw [if_neg (show ¬((0 : ℚ) ≤ score ∧ score ≤ 40) from fun h => c1 h.2),
        if_pos (⟨h40, c2⟩ : (40 : ℚ) ≤ score ∧ score ≤ 60), if_neg c1, if_pos c2]
    · by_cases c3 : score ≤ 75
      · have h60 : (60 : ℚ) ≤ score := le_of_lt (not_le.mp c2)
        rw [if_neg (show ¬((0 : ℚ) ≤ score ∧ score ≤ 40) from fun h => c1 h.2),
          if_neg (show ¬((40 : ℚ) ≤ score ∧ score ≤ 60) from fun h => c2 h.2),
          if_pos (⟨h60, c3⟩ : (60 : ℚ) ≤ score ∧ score ≤ 75), if_neg c1, if_neg c2, if_pos c3]
      · by_cases c4 : score ≤ 90
        · have h75 : (75 : ℚ) ≤ score := le_of_lt (not_le.mp c3)
          rw [if_neg (show ¬((0 : ℚ) ≤ score ∧ score ≤ 40) from fun h => c1 h.2),
            if_neg (show ¬((40 : ℚ) ≤ score ∧ score ≤ 60) from fun h => c2 h.2),
            if_neg (show ¬((60 : ℚ) ≤ score ∧ score ≤ 75) from fun h => c3 h.2),
            if_pos (⟨h75, c4⟩ : (75 : ℚ) ≤ score ∧ score ≤ 90),
            if_neg c1, if_neg c2, if_neg c3, if_pos c4]
        · have h90 : (90 : ℚ) ≤ score := le_of_lt (not_le.mp c4)
          rw [if_neg (show ¬((0 : ℚ) ≤ score ∧ score ≤ 40) from fun h => c1 h.2),
            if_neg (show ¬((40 : ℚ) ≤ score ∧ score ≤ 60) from fun h => c2 h.2),
            if_neg (show ¬((60 : ℚ) ≤ score ∧ score ≤ 75) from fun h => c3 h.2),
            if_neg (show ¬((75 : ℚ) ≤ score ∧ score ≤ 90) from fun h => c4 h.2),
            if_pos (⟨h90, h1⟩ : (90 : ℚ) ≤ score ∧ score ≤ 100),
            if_neg c1, if_neg c2, if_neg c3, if_neg c4]

theorem C1_classify_buckets_witness :
    (0 : ℚ) ≤ 77 ∧ (77 : ℚ) ≤ 100 ∧ classify_score 77 = "Strong" := by
  refine ⟨by norm_num, by norm_num, ?_⟩
  have h := (C1_classify_buckets 77 (by norm_num) (by norm_num)).1
  rw [h]
  norm_num

/-! ### Score maps and prior-report comparison (`_build_comparison_payload`) -/

/-- A mapping section-label → accuracy (a Python dict of floats). -/
abbrev ScoreMap := Dict ℚ

structure PrevSectionMeta where
  label : Option String
  accuracy : Option ℚ
deriving DecidableEq

/-- A previously persisted report document as read back from the `reports`
collection (only the fields the planner consumes). -/
structure PrevReportDoc where
  oid : Option String
  dateIso : Option String
  sectionReport : Dict PrevSectionMeta
deriving DecidableEq

structure CompEntry where
  label : String
  previous : ℚ
  current : ℚ
  delta : ℚ
  status : String
deriving DecidableEq

/-- The status thresholds of `_build_comparison_payload`. -/
def compStatus (delta : ℚ) : String :=
  if delta ≥ 2 then "improved" else if delta ≤ -2 then "downgraded" else "stable"

/-- The per-label loop body of `_build_comparison_payload`. -/
def compEntry (previousScores currentScores : ScoreMap) (label : String) : CompEntry :=
  let prevVal := dictGetD previousScores label 0
  let currVal := dictGetD currentScores label 0
  let delta := round2 (currVal - prevVal)
  ⟨label, prevVal, currVal, delta, compStatus delta⟩

/-- `sorted({*previous_scores.keys(), *current_scores.keys()})`. -/
def compLabels (previousScores currentScores : ScoreMap) : List String :=
  ((dictKeys previousScores ++ dictKeys currentScores).dedup).mergeSort
    (fun a b => decide (a ≤ b))

structure Comparison where
  sections : List CompEntry
  improved : List CompEntry
  downgraded : List CompEntry
  stable : List CompEntry
  previousReportId : Option String
  previousReportDate : Option String
deriving DecidableEq

/-- The record built by `_build_comparison_payload` when previous scores
exist (the improved/downgraded/stable lists are accumulated in the same
loop that builds `sections`, which is the corresponding filter). -/
def comparisonRecord (currentScores previousScores : ScoreMap)
    (previousDoc : Option PrevReportDoc) : Comparison :=
  let sections := (compLabels previousScores currentScores).map
    (compEntry previousScores currentScores)
  { sections := sections
    improved := sections.filter (fun e => e.status == "improved")
    downgraded := sections.filter (fun e => e.status == "downgraded")
    stable := sections.filter
      (fun e => !(e.status == "improved") && !(e.status == "downgraded"))
    previousReportId := previousDoc.bind PrevReportDoc.oid
    previousReportDate := previousDoc.bind PrevReportDoc.dateIso }

/-- `_build_comparison_payload(current_scores, previous_scores, previous_doc)`. -/
def buildComparison (currentScores previousScores : ScoreMap)
    (previousDoc : Option PrevReportDoc) : Option Comparison :=
  if previousScores.isEmpty then none
  else some (comparisonRecord currentScores previousScores previousDoc)

/-- Exchange the roles of previous and current in a comparison entry. -/
def swapCompEntry (e : CompEntry) : CompEntry :=
  ⟨e.label, e.current, e.previous, -e.delta,
    if e.status = "improved" then "downgraded"
    else if e.status = "downgraded" then "improved" else e.status⟩

theorem compStatus_improved (d : ℚ) (h : 2 ≤ d) : compStatus d = "improved" := by
  unfold compStatus
  rw [if_pos h]

theorem compStatus_downgraded (d : ℚ) (h : d ≤ -2) : compStatus d = "downgraded" := by
  unfold compStatus
  rw [if_neg (by simp only [ge_iff_le, not_le]; linarith), if_pos h]

theorem compStatus_stable (d : ℚ) (h1 : -2 < d) (h2 : d < 2) : compStatus d = "stable" := by
  unfold compStatus
  rw [if_neg (by simp only [ge_iff_le, not_le]; linarith),
    if_neg (by simp only [not_le]; linarith)]

theorem compStatus_iffs (d : ℚ) :
    (compStatus d = "improved" ↔ 2 ≤ d) ∧
    (compStatus d = "downgraded" ↔ d ≤ -2) ∧
    (compStatus d = "stable" ↔ -2 < d ∧ d < 2) := by
  rcases le_or_lt 2 d with h | h
  · rw [compStatus_improved d h]
    exact ⟨⟨fun _ => h, fun _ => rfl⟩,
      ⟨fun hh => absurd hh (by decide), fun hh => (by linarith : False).elim⟩,
      ⟨fun hh => absurd hh (by decide), fun hh => (by linarith [hh.2] : False).elim⟩⟩
  · rcases le_or_lt d (-2) with h2 | h2
    · rw [compStatus_downgraded d h2]
      exact ⟨⟨fun hh => absurd hh (by decide), fun hh => (by linarith : False).elim⟩,
        ⟨fun _ => h2, fun _ => rfl⟩,
        ⟨fun hh => absurd hh (by decide), fun hh => (by linarith [hh.1] : False).elim⟩⟩
    · rw [compStatus_stable d h2 h]
      exact ⟨⟨fun hh => absurd hh (by decide), fun hh => (by linarith : False).elim⟩,
        ⟨fun hh => absurd hh (by decide), fun hh => (by linarith : False).elim⟩,
        ⟨fun _ => ⟨h2, h⟩, fun _ => rfl⟩⟩

theorem compStatus_neg (d : ℚ) :
    compStatus (-d) =
      (if compStatus d = "improved" then "downgraded"
       else if compStatus d = "downgraded" then "improved" else compStatus d) := by
  rcases le_or_lt 2 d with h | h
  · rw [compStatus_improved d h, compStatus_downgraded (-d) (by linarith), if_pos rfl]
  · rcases le_or_lt d (-2) with h2 | h2
    · rw [compStatus_downgraded d h2, compStatus_improved (-d) (by linarith),
        if_neg (by decide), if_pos rfl]
    · rw [compStatus_stable d h2 h, compStatus_stable (-d) (by linarith) (by linarith),
        if_neg (by decide), if_neg (by decide)]

theorem compEntry_swap (previousScores currentScores : ScoreMap) (label : String) :
    compEntry currentScores previousScores label
      = swapCompEntry (compEntry previousScores currentScores label) := by
  unfold compEntry swapCompEntry
  have hd : round2 (dictGetD previousScores label 0 - dictGetD currentScores label 0)
      = -round2 (dictGetD currentScores label 0 - dictGetD previousScores label 0) := by
    rw [← round2_neg]
    congr 1
    ring
  simp only [hd, compStatus_neg]

theorem swap_status_improved (e : CompEntry) :
    ((swapCompEntry e).status == "improved") = (e.status == "downgraded") := by
  unfold swapCompEntry
  by_cases h1 : e.status = "improved"
  · simp [h1]
  · by_cases h2 : e.status = "downgraded"
    · simp [h1, h2]
    · simp [h1, h2]

theorem swap_status_downgraded (e : CompEntry) :
    ((swapCompEntry e).status == "downgraded") = (e.status == "improved") := by
  unfold swapCompEntry
  by_cases h1 : e.status = "improved"
  · simp [h1]
  · by_cases h2 : e.status = "downgraded"
    · simp [h1, h2]
    · simp [h1, h2]

theorem swap_status_stable (e : CompEntry) :
    (!((swapCompEntry e).status == "improved") && !((swapCompEntry e).status == "downgraded"))
      = (!(e.status == "improved") && !(e.status == "downgraded")) := by
  rw [swap_status_improved, swap_status_downgraded]
  cases e.status == "improved" <;> cases e.status == "downgraded" <;> rfl

theorem sorted_mergeSort_le (l : List String) :
    List.Sorted (fun x y : String => x ≤ y) (l.mergeSort (fun a b => decide (a ≤ b))) := by
  have htrans : ∀ a b c : String,
      (fun a b : String => decide (a ≤ b)) a b = true →
      (fun a b : String => decide (a ≤ b)) b c = true →
      (fun a b : String => decide (a ≤ b)) a c = true := by
    intro a b c hab hbc
    exact decide_eq_true (le_trans (of_decide_eq_true hab) (of_decide_eq_true hbc))
  have htotal : ∀ a b : String,
      ((fun a b : String => decide (a ≤ b)) a b || (fun a b : String => decide (a ≤ b)) b a)
        = true := by
    intro a b
    rw [Bool.or_eq_true]
    rcases le_total a b with h | h
    · exact Or.inl (decide_eq_true h)
    · exact Or.inr (decide_eq_true h)
  have hs := @List.sorted_mergeSort String (fun a b : String => decide (a ≤ b)) htrans htotal l
  exact hs.imp (fun h => of_decide_eq_true h)

theorem compLabels_comm (a b : ScoreMap) : compLabels a b = compLabels b a := by
  unfold compLabels
  have p1 := List.mergeSort_perm ((dictKeys a ++ dictKeys b).dedup)
    (fun a b : String => decide (a ≤ b))
  have p2 := List.mergeSort_perm ((dictKeys b ++ dictKeys a).dedup)
    (fun a b : String => decide (a ≤ b))
  have pmid : ((dictKeys a ++ dictKeys b).dedup).Perm ((dictKeys b ++ dictKeys a).dedup) :=
    (List.perm_append_comm).dedup
  exact List.eq_of_perm_of_sorted (p1.trans (pmid.trans p2.symm))
    (sorted_mergeSort_le _) (sorted_mergeSort_le _)

theorem comparisonRecord_swap (currentScores previousScores : ScoreMap)
    (doc : Option PrevReportDoc) :
    (comparisonRecord previousScores currentScores doc).sections
        = (comparisonRecord currentScores previousScores doc).sections.map swapCompEntry ∧
    (comparisonRecord previousScores currentScores doc).improved
        = (comparisonRecord currentScores previousScores doc).downgraded.map swapCompEntry ∧
    (comparisonRecord previousScores currentScores doc).downgraded
        = (comparisonRecord currentScores previousScores doc).improved.map swapCompEntry ∧
    (comparisonRecord previousScores currentScores doc).stable
        = (comparisonRecord currentScores previousScores doc).stable.map swapCompEntry := by
  have hfun : compEntry currentScores previousScores
      = swapCompEntry ∘ compEntry previousScores currentScores :=
    funext (compEntry_swap previousScores currentScores)
  have hsec : (compLabels currentScores previousScores).map (compEntry currentScores previousScores)
      = ((compLabels previousScores currentScores).map
          (compEntry previousScores currentScores)).map swapCompEntry := by
    rw [compLabels_comm currentScores previousScores, hfun, List.map_map]
  refine ⟨?_, ?_, ?_, ?_⟩
  · simpa only [comparisonRecord] using hsec
  · simp only [comparisonRecord]
    rw [hsec, List.filter_map]
    congr 1
    apply List.filter_congr
    intro e _
    exact swap_status_improved e
  · simp only [comparisonRecord]
    rw [hsec, List.filter_map]
    congr 1
    apply List.filter_congr
    intro e _
    exact swap_status_downgraded e
  · simp only [comparisonRecord]
    rw [hsec, List.filter_map]
    congr 1
    apply List.filter_congr
    intro e _
    exact swap_status_stable e

/-- C6: every section entry of `_build_comparison_payload` has
`delta = round2(current − previous)` with status "improved" ⟺ delta ≥ 2,
"downgraded" ⟺ delta ≤ −2 (both boundaries classify), "stable" ⟺ strictly
between; and swapping the previous and current mappings negates every delta
and exchanges improved with downgraded while keeping stable stable
(entrywise via `swapCompEntry`). -/
theorem C6_comparison_delta_antisymmetry (previousScores currentScores : ScoreMap)
    (doc : Option PrevReportDoc) :
    (∀ c, buildComparison currentScores previousScores doc = some c →
      ∀ e ∈ c.sections,
        e.delta = round2 (e.current - e.previous) ∧
        (e.status = "improved" ↔ 2 ≤ e.delta) ∧
        (e.status = "downgraded" ↔ e.delta ≤ -2) ∧
        (e.status = "stable" ↔ -2 < e.delta ∧ e.delta < 2)) ∧
    (¬previousScores.isEmpty → ¬currentScores.isEmpty →
      ∃ c c', buildComparison currentScores previousScores doc = some c ∧
        buildComparison previousScores currentScores doc = some c' ∧
        c'.sections = c.sections.map swapCompEntry ∧
        c'.improved = c.downgraded.map swapCompEntry ∧
        c'.downgraded = c.improved.map swapCompEntry ∧
        c'.stable = c.stable.map swapCompEntry) := by
  constructor
  · intro c hc e he
    unfold buildComparison at hc
    by_cases hp : previousScores.isEmpty
    · rw [if_pos hp] at hc
      exact absurd hc (by simp)
    · rw [if_neg hp] at hc
      obtain rfl : comparisonRecord currentScores previousScores doc = c := Option.some.inj hc
      simp only [comparisonRecord, List.mem_map] at he
      obtain ⟨label, _, rfl⟩ := he
      exact ⟨rfl, (compStatus_iffs _).1, (compStatus_iffs _).2.1, (compStatus_iffs _).2.2⟩
  · intro hp hc
    obtain ⟨s1, s2, s3, s4⟩ := comparisonRecord_swap currentScores previousScores doc
    exact ⟨_, _, by unfold buildComparison; rw [if_neg hp],
      by unfold buildComparison; rw [if_neg hc], s1, s2, s3, s4⟩

theorem C6_comparison_delta_antisymmetry_witness :
    ¬([("Polity", (50 : ℚ))] : ScoreMap).isEmpty ∧
    ¬([("Polity", (52 : ℚ))] : ScoreMap).isEmpty ∧
    ∃ c c', buildComparison [("Polity", 52)] [("Polity", 50)] none = some c ∧
      buildComparison [("Polity", 50)] [("Polity", 52)] none = some c' ∧
      c'.sections = c.sections.map swapCompEntry ∧
      c'.improved = c.downgraded.map swapCompEntry ∧
      c'.downgraded = c.improved.map swapCompEntry ∧
      c'.stable = c.stable.map swapCompEntry :=
  ⟨by decide, by decide,
    (C6_comparison_delta_antisymmetry [("Polity", 50)] [("Polity", 52)] none).2
      (by decide) (by decide)⟩

/-! ### Score history and trend feedback (`_build_feedback`) -/

/-- Two-digit zero-padded fractional part. -/
def pad2 (n : ℕ) : String := if n < 10 then "0" ++ natToStr n else natToStr n

/-- Decimal rendering of a rational whose denominator divides 100 (the shape
`round2` produces), mirroring Python float `str` on such values (at least
one fractional digit); other denominators fall back to `num/den`. Only used
to assemble display strings that no theorem inspects. -/
def ratToStr (q : ℚ) : String :=
  let sign := if q < 0 then "-" else ""
  if 100 % q.den = 0 then
    let scaled : ℤ := |q.num| * ((100 : ℤ) / (q.den : ℤ))
    let ip := scaled / 100
    let fr := scaled % 100
    if fr = 0 then sign ++ natToStr ip.toNat ++ ".0"
    else if fr % 10 = 0 then sign ++ natToStr ip.toNat ++ "." ++ natToStr (fr / 10).toNat
    else sign ++ natToStr ip.toNat ++ "." ++ pad2 fr.toNat
  else sign ++ natToStr q.num.natAbs ++ "/" ++ natToStr q.den

/-- One `testScores` entry: a timestamped per-section (slug-keyed) accuracy
snapshot; the date is an abstract timestamp ordered like the stored
datetimes. -/
structure HistEntry where
  date : ℕ
  sections : Dict ℚ
deriving DecidableEq

/-- The payload `_load_history` returns. -/
structure History where
  available : Bool
  entries : List HistEntry
deriving DecidableEq

def genericFeedbackMessage : String :=
  "No prior attempts available. Focus on weaker sections highlighted in the report and retake after a week."

structure FeedbackRecord where
  sectionLabel : String
  previous : ℚ
  current : ℚ
  delta : ℚ
deriving DecidableEq

structure Feedback where
  summary : String
  improved_sections : List FeedbackRecord
  regressed_sections : List FeedbackRecord
  stable_sections : List FeedbackRecord
deriving DecidableEq

/-- The per-section record of `_build_feedback` (previous snapshot keyed by
section slug, current scores keyed by display label). -/
def feedbackRecord (previous : Dict ℚ) (currentScores : ScoreMap) (slug : String) :
    FeedbackRecord :=
  let label := sectionLabel slug
  let prevScore := dictGetD previous slug 0
  let currScore := dictGetD currentScores label 0
  ⟨label, prevScore, currScore, round2 (currScore - prevScore)⟩

/-- `_build_feedback(history, current_scores)`. -/
def buildFeedback (history : History) (currentScores : ScoreMap) : Feedback :=
  if history.entries.length < 2 then
    ⟨genericFeedbackMessage, [], [], []⟩
  else
    let previous := (history.entries.getD (history.entries.length - 2) ⟨0, []⟩).sections
    let recs := SECTION_ORDER.map (feedbackRecord previous currentScores)
    let improved := recs.filter (fun r => decide (2 < r.delta))
    let regressed := recs.filter (fun r => decide (r.delta < -2))
    let stable := recs.filter (fun r => !(decide (2 < r.delta)) && !(decide (r.delta < -2)))
    let parts :=
      (if improved.isEmpty then [] else
        ["Improved: " ++ String.intercalate ", "
          (improved.map (fun r => r.sectionLabel ++ " (+" ++ ratToStr r.delta ++ "%)"))]) ++
      (if regressed.isEmpty then [] else
        ["Needs attention: " ++ String.intercalate ", "
          (regressed.map (fun r => r.sectionLabel ++ " (" ++ ratToStr r.delta ++ "%)"))]) ++
      (if stable.isEmpty then [] else
        ["Stable: " ++ String.intercalate ", " (stable.map FeedbackRecord.sectionLabel)])
    let summary :=
      if parts.isEmpty then "Performance comparable to previous attempt."
      else String.intercalate "; " parts
    ⟨summary, improved, regressed, stable⟩

/-- The `recs` list `_build_feedback` builds from the second-to-last
snapshot and the current scores. -/
def feedbackRecs (history : History) (currentScores : ScoreMap) : List FeedbackRecord :=
  SECTION_ORDER.map (feedbackRecord
    (history.entries.getD (history.entries.length - 2) ⟨0, []⟩).sections currentScores)

theorem buildFeedback_improved (history : History) (currentScores : ScoreMap)
    (h : ¬history.entries.length < 2) :
    (buildFeedback history currentScores).improved_sections
      = (feedbackRecs history currentScores).filter (fun r => decide (2 < r.delta)) := by
  unfold buildFeedback feedbackRecs
  rw [if_neg h]

theorem buildFeedback_regressed (history : History) (currentScores : ScoreMap)
    (h : ¬history.entries.length < 2) :
    (buildFeedback history currentScores).regressed_sections
      = (feedbackRecs history currentScores).filter (fun r => decide (r.delta < -2)) := by
  unfold buildFeedback feedbackRecs
  rw [if_neg h]

theorem buildFeedback_stable (history : History) (currentScores : ScoreMap)
    (h : ¬history.entries.length < 2) :
    (buildFeedback history currentScores).stable_sections
      = (feedbackRecs history currentScores).filter
          (fun r => !(decide (2 < r.delta)) && !(decide (r.delta < -2))) := by
  unfold buildFeedback feedbackRecs
  rw [if_neg h]

theorem round2_zero : round2 0 = 0 := by
  simpa using round2_intCast 0

theorem round2_two : round2 2 = 2 := by
  simpa using round2_intCast 2

/-- C7 (amended): trend feedback compares only the last two snapshots (any
prefix of older history is irrelevant), returns the fixed generic text below
2 snapshots, and buckets the 7 sections with STRICT thresholds
`delta > 2` / `delta < −2`; the buckets therefore agree with the
ComparisonResult status for every delta EXCEPT exactly ±2, where the
feedback reports stable while the comparison reports improved/downgraded. -/
theorem C7_feedback_strict_buckets (history : History) (currentScores : ScoreMap) :
    (history.entries.length < 2 →
      buildFeedback history currentScores = ⟨genericFeedbackMessage, [], [], []⟩) ∧
    (2 ≤ history.entries.length →
      (feedbackRecs history currentScores).length = 7 ∧
      (buildFeedback history currentScores).improved_sections
        = (feedbackRecs history currentScores).filter (fun r => decide (2 < r.delta)) ∧
      (buildFeedback history currentScores).regressed_sections
        = (feedbackRecs history currentScores).filter (fun r => decide (r.delta < -2)) ∧
      (buildFeedback history currentScores).stable_sections
        = (feedbackRecs history currentScores).filter
            (fun r => !(decide (2 < r.delta)) && !(decide (r.delta < -2))) ∧
      (∀ r ∈ feedbackRecs history currentScores, r.delta ≠ 2 → r.delta ≠ -2 →
        ((r ∈ (buildFeedback history currentScores).improved_sections
            ↔ compStatus r.delta = "improved") ∧
         (r ∈ (buildFeedback history currentScores).regressed_sections
            ↔ compStatus r.delta = "downgraded") ∧
         (r ∈ (buildFeedback history currentScores).stable_sections
            ↔ compStatus r.delta = "stable")))) ∧
    (∀ pre rest, history.entries = pre ++ rest → rest.length = 2 →
      buildFeedback history currentScores
        = buildFeedback ⟨history.available, rest⟩ currentScores) := by
  refine ⟨?_, ?_, ?_⟩
  · intro h
    unfold buildFeedback
    rw [if_pos h]
  · intro h
    have hnot : ¬history.entries.length < 2 := not_lt.mpr h
    refine ⟨by simp [feedbackRecs, SECTION_ORDER, SECTION_CONFIG],
      buildFeedback_improved _ _ hnot, buildFeedback_regressed _ _ hnot,
      buildFeedback_stable _ _ hnot, ?_⟩
    intro r hr hne2 hnem2
    have hiffs := compStatus_iffs r.delta
    refine ⟨?_, ?_, ?_⟩
    · rw [buildFeedback_improved _ _ hnot, List.mem_filter]
      simp only [hr, true_and, decide_eq_true_eq]
      constructor
      · intro hlt
        exact hiffs.1.mpr (le_of_lt hlt)
      · intro him
        exact lt_of_le_of_ne (hiffs.1.mp him) (Ne.symm hne2)
    · rw [buildFeedback_regressed _ _ hnot, List.mem_filter]
      simp only [hr, true_and, decide_eq_true_eq]
      constructor
      · intro hlt
        exact hiffs.2.1.mpr (le_of_lt hlt)
      · intro him
        exact lt_of_le_of_ne (hiffs.2.1.mp him) hnem2
    · rw [buildFeedback_stable _ _ hnot, List.mem_filter]
      simp only [hr, true_and, Bool.and_eq_true, Bool.not_eq_true', decide_eq_false_iff_not,
        not_lt]
      constructor
      · intro ⟨h1, h2⟩
        exact hiffs.2.2.mpr ⟨lt_of_le_of_ne h2 hnem2.symm, lt_of_le_of_ne h1 hne2⟩
      · intro hst
        obtain ⟨hs1, hs2⟩ := hiffs.2.2.mp hst
        exact ⟨le_of_lt hs2, le_of_lt hs1⟩
  · intro pre rest heq hlen
    unfold buildFeedback
    rw [heq]
    dsimp only
    simp only [List.length_append, hlen]
    rw [if_neg (show ¬(pre.length + 2 < 2) by omega), if_neg (show ¬(2 < 2) by omega)]
    have hprev : (pre ++ rest).getD (pre.length + 2 - 2) (⟨0, []⟩ : HistEntry)
        = rest.getD 0 ⟨0, []⟩ := by
      have h2 : pre.length + 2 - 2 = pre.length := by omega
      rw [h2, List.getD_append_right pre rest _ pre.length le_rfl, Nat.sub_self]
    rw [hprev]

theorem C7_feedback_strict_buckets_witness :
    (⟨false, ([] : List HistEntry)⟩ : History).entries.length < 2 ∧
    buildFeedback ⟨false, []⟩ [] = ⟨genericFeedbackMessage, [], [], []⟩ :=
  ⟨by decide, (C7_feedback_strict_buckets ⟨false, []⟩ []).1 (by decide)⟩

theorem feedbackRecord_eval (prev curr : Dict ℚ) (slug L : String) (p c d : ℚ)
    (hL : sectionLabel slug = L) (hp : dictGetD prev slug 0 = p)
    (hc : dictGetD curr L 0 = c) (hd : round2 (c - p) = d) :
    feedbackRecord prev curr slug = ⟨L, p, c, d⟩ := by
  unfold feedbackRecord
  dsimp only
  rw [hL, hp, hc, hd]

/-- C7 counterexample: with previous Polity accuracy 50 and current 52 the
delta is exactly +2; the trend feedback buckets Polity as STABLE (strict
`> 2` test) while the ComparisonResult status for the same pair is
"improved" (inclusive `≥ 2` test) — the two threshold rules differ at ±2. -/
theorem C7_feedback_threshold_counterexample :
    (⟨"Polity", 50, 52, 2⟩ : FeedbackRecord) ∈
      (buildFeedback ⟨true, [⟨0, [("polity", 50)]⟩, ⟨1, [("polity", 52)]⟩]⟩
        [("Polity", 52)]).stable_sections ∧
    (buildFeedback ⟨true, [⟨0, [("polity", 50)]⟩, ⟨1, [("polity", 52)]⟩]⟩
        [("Polity", 52)]).improved_sections = [] ∧
    (compEntry [("Polity", 50)] [("Polity", 52)] "Polity").status = "improved" ∧
    (compEntry [("Polity", 50)] [("Polity", 52)] "Polity").delta = 2 := by
  have e1 : feedbackRecord [("polity", (50 : ℚ))] [("Polity", (52 : ℚ))] "polity"
      = ⟨"Polity", 50, 52, 2⟩ :=
    feedbackRecord_eval _ _ _ _ _ _ _ (by decide) (by decide) (by decide)
      (by norm_num [round2_two])
  have e2 : feedbackRecord [("polity", (50 : ℚ))] [("Polity", (52 : ℚ))] "economy"
      = ⟨"Economy", 0, 0, 0⟩ :=
    feedbackRecord_eval _ _ _ _ _ _ _ (by decide) (by decide) (by decide)
      (by norm_num [round2_zero])
  have e3 : feedbackRecord [("polity", (50 : ℚ))] [("Polity", (52 : ℚ))] "history"
      = ⟨"History", 0, 0, 0⟩ :=
    feedbackRecord_eval _ _ _ _ _ _ _ (by decide) (by decide) (by decide)
      (by norm_num [round2_zero])
  have e4 : feedbackRecord [("polity", (50 : ℚ))] [("Polity", (52 : ℚ))] "geography"
      = ⟨"Geography", 0, 0, 0⟩ :=
    feedbackRecord_eval _ _ _ _ _ _ _ (by decide) (by decide) (by decide)
      (by norm_num [round2_zero])
  have e5 : feedbackRecord [("polity", (50 : ℚ))] [("Polity", (52 : ℚ))] "environment"
      = ⟨"Environment", 0, 0, 0⟩ :=
    feedbackRecord_eval _ _ _ _ _ _ _ (by decide) (by decide) (by decide)
      (by norm_num [round2_zero])
  have e6 : feedbackRecord [("polity", (50 : ℚ))] [("Polity", (52 : ℚ))] "scienceTech"
      = ⟨"Science & Tech", 0, 0, 0⟩ :=
    feedbackRecord_eval _ _ _ _ _ _ _ (by decide) (by decide) (by decide)
      (by norm_num [round2_zero])
  have e7 : feedbackRecord [("polity", (50 : ℚ))] [("Polity", (52 : ℚ))] "currentAffairs"
      = ⟨"Current Affairs", 0, 0, 0⟩ :=
    feedbackRecord_eval _ _ _ _ _ _ _ (by decide) (by decide) (by decide)
      (by norm_num [round2_zero])
  have hso : SECTION_ORDER
      = ["polity", "economy", "history", "geography", "environment", "scienceTech",
         "currentAffairs"] := rfl
  have hrecs : feedbackRecs ⟨true, [⟨0, [("polity", 50)]⟩, ⟨1, [("polity", 52)]⟩]⟩
      [("Polity", 52)]
      = [⟨"Polity", 50, 52, 2⟩, ⟨"Economy", 0, 0, 0⟩, ⟨"History", 0, 0, 0⟩,
         ⟨"Geography", 0, 0, 0⟩, ⟨"Environment", 0, 0, 0⟩, ⟨"Science & Tech", 0, 0, 0⟩,
         ⟨"Current Affairs", 0, 0, 0⟩] := by
    have hstep : feedbackRecs ⟨true, [⟨0, [("polity", 50)]⟩, ⟨1, [("polity", 52)]⟩]⟩
        [("Polity", 52)]
        = SECTION_ORDER.map (feedbackRecord [("polity", 50)] [("Polity", 52)]) := rfl
    rw [hstep, hso]
    simp only [List.map_cons, List.map_nil, e1, e2, e3, e4, e5, e6, e7]
  have hcomp : (compEntry [("Polity", (50 : ℚ))] [("Polity", (52 : ℚ))] "Polity").delta = 2 := by
    show round2 (dictGetD [("Polity", (52 : ℚ))] "Polity" 0
      - dictGetD [("Polity", (50 : ℚ))] "Polity" 0) = 2
    rw [show dictGetD [("Polity", (52 : ℚ))] "Polity" 0 = 52 from by decide,
      show dictGetD [("Polity", (50 : ℚ))] "Polity" 0 = 50 from by decide]
    norm_num [round2_two]
  refine ⟨?_, ?_, ?_, hcomp⟩
  · rw [buildFeedback_stable _ _ (by decide), hrecs]
    decide
  · rw [buildFeedback_improved _ _ (by decide), hrecs]
    decide
  · show compStatus (compEntry [("Polity", (50 : ℚ))] [("Polity", (52 : ℚ))] "Polity").delta
      = "improved"
    rw [hcomp]
    exact compStatus_improved 2 le_rfl

/-! ### Deterministic study-plan generation (`_deterministic_generate`) -/

structure DailyPlan where
  mcq_per_day : ℕ
  revision_minutes : ℕ
  planStructure : String
deriving DecidableEq

structure DetPlan where
  classification : List (String × String)
  weak_subjects : List String
  strong_subjects : List String
  reasons : List (String × String)
  seven_day_plan : List (String × String)
  thirty_day_plan : List (String × String)
  topic_resources : List (String × List String)
  booklist : List (String × List String)
  daily_plan : DailyPlan
  pyq_strategy : String
  comparison_insights : Option Comparison
  trend_summary : Option String
deriving DecidableEq

inductive DetResult
  | noData (message : String)
  | plan (p : DetPlan)
deriving DecidableEq

/-- `_deterministic_generate(perf, comparison)`.  `classification[s]` is
looked up pointwise, which is the same because dict keys are unique. -/
def detGenerate (perf : ScoreMap) (comparison : Option Comparison) : DetResult :=
  let subjects := dictKeys perf
  if subjects.isEmpty then .noData "No performance data provided."
  else
    let score := fun s => dictGetD perf s 0
    let classification := subjects.map (fun s => (s, classify_score (score s)))
    let weak := subjects.filter (fun s =>
      classify_score (score s) == "Critical Weak" || classify_score (score s) == "Weak")
    let strong := subjects.filter (fun s =>
      classify_score (score s) == "Strong" || classify_score (score s) == "Excellent")
    let reasons := subjects.map (fun s =>
      (s, if score s < 60 then "Conceptual gaps and low PYQ coverage."
          else "Needs more timed practice to boost accuracy."))
    let focus := if weak.isEmpty then subjects.take 2 else weak.take 2
    let focus0 := focus.headD ""
    let focus1 := if 1 < focus.length then focus.getD 1 "" else subjects.headD ""
    let sevenDay := [
      ("Day 1", "Brush up NCERT notes for " ++ focus0 ++ " and jot key mind-maps."),
      ("Day 2", "Topic drills + PYQs for " ++ focus0 ++ "."),
      ("Day 3", "Concept revisions for " ++ focus1 ++ " plus 30 MCQs."),
      ("Day 4", "Current Affairs consolidation — monthly magazine + daily quiz."),
      ("Day 5", "Geography atlas work + map-based MCQs."),
      ("Day 6", "Full-length mixed mock (100 Qs) under exam conditions."),
      ("Day 7", "Error log review + revision flashcards.")]
    let sortedByNeed := subjects.mergeSort (fun a b => decide (score a ≤ score b))
    let week1 := sortedByNeed.headD ""
    let week2 := if 1 < sortedByNeed.length then sortedByNeed.getD 1 "" else sortedByNeed.headD ""
    let thirtyDay := [
      ("Week 1", week1 ++ " deep dive; integrate PYQs"),
      ("Week 2", week2 ++ " + Current Affairs consolidation"),
      ("Week 3", "Economy & Environment alternating days + answer writing"),
      ("Week 4", "Comprehensive revision + mixed mocks (2) + error log fixes")]
    let topicResources := subjects.map (fun s =>
      (s, ["NCERT summary for " ++ s,
           (dictGetD DEFAULT_BOOKLIST s ["Standard reference book"]).headD "",
           "Vision/PT365 notes for rapid revision"]))
    let booklist := subjects.map (fun s => (s, dictGetD DEFAULT_BOOKLIST s []))
    let summaryLines :=
      match comparison with
      | none => []
      | some c =>
        (if c.improved.isEmpty then [] else
          ["Improved: " ++ String.intercalate ", "
            (c.improved.map (fun e => e.label ++ " (+" ++ ratToStr e.delta ++ " pts)"))]) ++
        (if c.downgraded.isEmpty then [] else
          ["Downgraded: " ++ String.intercalate ", "
            (c.downgraded.map (fun e => e.label ++ " (" ++ ratToStr e.delta ++ " pts)"))]) ++
        (if c.stable.isEmpty then [] else
          ["Stable: " ++ String.intercalate ", " (c.stable.map CompEntry.label)])
    .plan
      { classification := classification
        weak_subjects := weak
        strong_subjects := strong
        reasons := reasons
        seven_day_plan := sevenDay
        thirty_day_plan := thirtyDay
        topic_resources := topicResources
        booklist := booklist
        daily_plan := ⟨60, 90,
          "Morning: new concepts | Afternoon: MCQs | Evening: revision + PYQ notes"⟩
        pyq_strategy :=
          "Target the last 7 years topic-wise; maintain an error log and reattempt incorrect PYQs fortnightly."
        comparison_insights := comparison
        trend_summary :=
          if comparison.isSome && !summaryLines.isEmpty
          then some (String.intercalate "; " summaryLines) else none }

def detClassification : DetResult → List (String × String)
  | .noData _ => []
  | .plan p => p.classification

def detWeak : DetResult → List String
  | .noData _ => []
  | .plan p => p.weak_subjects

def detStrong : DetResult → List String
  | .noData _ => []
  | .plan p => p.strong_subjects

def detSevenDay : DetResult → List (String × String)
  | .noData _ => []
  | .plan p => p.seven_day_plan

def detThirtyDay : DetResult → List (String × String)
  | .noData _ => []
  | .plan p => p.thirty_day_plan

theorem detGenerate_fields (perf : ScoreMap) (comparison : Option Comparison)
    (h : ¬(dictKeys perf).isEmpty = true) :
    detClassification (detGenerate perf comparison)
        = (dictKeys perf).map (fun s => (s, classify_score (dictGetD perf s 0))) ∧
    detWeak (detGenerate perf comparison)
        = (dictKeys perf).filter (fun s =>
            classify_score (dictGetD perf s 0) == "Critical Weak"
              || classify_score (dictGetD perf s 0) == "Weak") ∧
    detStrong (detGenerate perf comparison)
        = (dictKeys perf).filter (fun s =>
            classify_score (dictGetD perf s 0) == "Strong"
              || classify_score (dictGetD perf s 0) == "Excellent") := by
  unfold detGenerate
  rw [if_neg h]
  exact ⟨rfl, rfl, rfl⟩

theorem detGenerate_thirty (perf : ScoreMap) (comparison : Option Comparison)
    (h : ¬(dictKeys perf).isEmpty = true) :
    detThirtyDay (detGenerate perf comparison) =
      (let ordered := (dictKeys perf).mergeSort
        (fun a b => decide (dictGetD perf a 0 ≤ dictGetD perf b 0))
      [("Week 1", ordered.headD "" ++ " deep dive; integrate PYQs"),
       ("Week 2", (if 1 < ordered.length then ordered.getD 1 "" else ordered.headD "")
          ++ " + Current Affairs consolidation"),
       ("Week 3", "Economy & Environment alternating days + answer writing"),
       ("Week 4", "Comprehensive revision + mixed mocks (2) + error log fixes")]) := by
  unfold detGenerate
  rw [if_neg h]
  rfl

/-- C8 counterexample: the claim's example classifies Economy's accuracy 72
as "Strong", but 72 lies in the Average bucket ([60,75]); the code (and the
spec's own threshold table) classify it as "Average". -/
theorem C8_roadmap_example_counterexample :
    classify_score 72 = "Average" ∧ ¬ classify_score 72 = "Strong" ∧
    ("Economy", "Average") ∈ detClassification
      (detGenerate [("Polity", 35), ("Economy", 72), ("History", 91)] none) ∧
    ("Economy", "Strong") ∉ detClassification
      (detGenerate [("Polity", 35), ("Economy", 72), ("History", 91)] none) :=
  ⟨by decide, by decide, by decide, by decide⟩

/-- C8 (amended): for every non-empty performance mapping the 4-week
roadmap is built from the subjects sorted by ascending score, with the
weakest subject (a score minimizer) in week 1 and the second weakest in
week 2 (weeks 3–4 are fixed text); and for the example accuracies
{Polity:35, Economy:72, History:91} the classification is
{Critical Weak, Average, Excellent} (72 is "Average", not "Strong"), the
weak list is [Polity], the strong list is [History], and week 1 of the
roadmap focuses on Polity, the lowest score. -/
theorem C8_roadmap_ascending (perf : ScoreMap) (hne : perf ≠ []) :
    (∃ ordered : List String,
      ordered = (dictKeys perf).mergeSort
        (fun a b => decide (dictGetD perf a 0 ≤ dictGetD perf b 0)) ∧
      ordered.Perm (dictKeys perf) ∧
      ordered.Pairwise (fun a b => dictGetD perf a 0 ≤ dictGetD perf b 0) ∧
      (∀ s ∈ dictKeys perf, dictGetD perf (ordered.headD "") 0 ≤ dictGetD perf s 0) ∧
      detThirtyDay (detGenerate perf none) =
        [("Week 1", ordered.headD "" ++ " deep dive; integrate PYQs"),
         ("Week 2", (if 1 < ordered.length then ordered.getD 1 "" else ordered.headD "")
            ++ " + Current Affairs consolidation"),
         ("Week 3", "Economy & Environment alternating days + answer writing"),
         ("Week 4", "Comprehensive revision + mixed mocks (2) + error log fixes")]) ∧
    detClassification (detGenerate [("Polity", 35), ("Economy", 72), ("History", 91)] none)
      = [("Polity", "Critical Weak"), ("Economy", "Average"), ("History", "Excellent")] ∧
    detWeak (detGenerate [("Polity", 35), ("Economy", 72), ("History", 91)] none)
      = ["Polity"] ∧
    detStrong (detGenerate [("Polity", 35), ("Economy", 72), ("History", 91)] none)
      = ["History"] ∧
    (detThirtyDay (detGenerate [("Polity", 35), ("Economy", 72), ("History", 91)] none)).headD
        ("", "")
      = ("Week 1", "Polity deep dive; integrate PYQs") := by
  have hkeysne : dictKeys perf ≠ [] := by
    intro hk
    rw [dictKeys, List.map_eq_nil_iff] at hk
    exact hne hk
  have hempty : ¬(dictKeys perf).isEmpty = true := by
    rw [List.isEmpty_iff]
    exact hkeysne
  refine ⟨?_, by decide, by decide, by decide, ?_⟩
  · refine ⟨(dictKeys perf).mergeSort
      (fun a b => decide (dictGetD perf a 0 ≤ dictGetD perf b 0)), rfl, ?_, ?_, ?_, ?_⟩
    · exact List.mergeSort_perm _ _
    · have htrans : ∀ a b c : String,
          (fun a b : String => decide (dictGetD perf a 0 ≤ dictGetD perf b 0)) a b = true →
          (fun a b : String => decide (dictGetD perf a 0 ≤ dictGetD perf b 0)) b c = true →
          (fun a b : String => decide (dictGetD perf a 0 ≤ dictGetD perf b 0)) a c = true := by
        intro a b c hab hbc
        exact decide_eq_true (le_trans (of_decide_eq_true hab) (of_decide_eq_true hbc))
      have htotal : ∀ a b : String,
          ((fun a b : String => decide (dictGetD perf a 0 ≤ dictGetD perf b 0)) a b
            || (fun a b : String => decide (dictGetD perf a 0 ≤ dictGetD perf b 0)) b a)
            = true := by
        intro a b
        rw [Bool.or_eq_true]
        rcases le_total (dictGetD perf a 0) (dictGetD perf b 0) with h | h
        · exact Or.inl (decide_eq_true h)
        · exact Or.inr (decide_eq_true h)
      have hs := @List.sorted_mergeSort String
        (fun a b : String => decide (dictGetD perf a 0 ≤ dictGetD perf b 0)) htrans htotal
        (dictKeys perf)
      exact hs.imp (fun h => of_decide_eq_true h)
    · intro s hs
      have hperm := List.mergeSort_perm (dictKeys perf)
        (fun a b : String => decide (dictGetD perf a 0 ≤ dictGetD perf b 0))
      have hsorted := @List.sorted_mergeSort String
        (fun a b : String => decide (dictGetD perf a 0 ≤ dictGetD perf b 0)) ?_ ?_
        (dictKeys perf)
      case refine_1 =>
        intro a b c hab hbc
        exact decide_eq_true (le_trans (of_decide_eq_true hab) (of_decide_eq_true hbc))
      case refine_2 =>
        intro a b
        rw [Bool.or_eq_true]
        rcases le_total (dictGetD perf a 0) (dictGetD perf b 0) with h | h
        · exact Or.inl (decide_eq_true h)
        · exact Or.inr (decide_eq_true h)
      have hmem : s ∈ (dictKeys perf).mergeSort
          (fun a b : String => decide (dictGetD perf a 0 ≤ dictGetD perf b 0)) :=
        hperm.symm.subset hs
      cases hms : (dictKeys perf).mergeSort
          (fun a b : String => decide (dictGetD perf a 0 ≤ dictGetD perf b 0)) with
      | nil =>
        rw [hms] at hmem
        exact absurd hmem (List.not_mem_nil s)
      | cons x t =>
        rw [hms] at hmem hsorted
        rcases List.mem_cons.mp hmem with rfl | hmemt
        · simp only [List.headD_cons]
          exact le_rfl
        · simp only [List.headD_cons]
          exact of_decide_eq_true ((List.pairwise_cons.mp hsorted).1 s hmemt)
    · exact detGenerate_thirty perf none hempty
  · have hkeysEx : dictKeys [("Polity", (35 : ℚ)), ("Economy", 72), ("History", 91)]
        = ["Polity", "Economy", "History"] := by decide
    have hms : (["Polity", "Economy", "History"] : List String).mergeSort
        (fun a b => decide
          (dictGetD [("Polity", (35 : ℚ)), ("Economy", 72), ("History", 91)] a 0
            ≤ dictGetD [("Polity", (35 : ℚ)), ("Economy", 72), ("History", 91)] b 0))
        = ["Polity", "Economy", "History"] := by
      apply List.mergeSort_of_sorted
      decide
    rw [detGenerate_thirty _ none (by decide)]
    rw [hkeysEx, hms]
    decide

theorem C8_roadmap_ascending_witness :
    ([("Polity", (35 : ℚ)), ("Economy", 72), ("History", 91)] : ScoreMap) ≠ [] ∧
    detWeak (detGenerate [("Polity", 35), ("Economy", 72), ("History", 91)] none)
      = ["Polity"] := by
  refine ⟨by decide, ?_⟩
  exact (C8_roadmap_ascending [("Polity", 35), ("Economy", 72), ("History", 91)]
    (by decide)).2.2.1

/-- C10: `classify_score` is total: any score outside [0,100] yields the
label "Unknown" rather than an error, and in the deterministic plan such a
section appears in the classification with label "Unknown" and in neither
the weak-subjects nor the strong-subjects list. -/
theorem C10_classify_out_of_range (score : ℚ) (h : score < 0 ∨ 100 < score) :
    classify_score score = "Unknown" ∧
    (∀ perf : ScoreMap, ∀ s ∈ dictKeys perf, dictGetD perf s 0 = score →
      (s, "Unknown") ∈ detClassification (detGenerate perf none) ∧
      s ∉ detWeak (detGenerate perf none) ∧
      s ∉ detStrong (detGenerate perf none)) := by
  have hU : classify_score score = "Unknown" := by
    simp only [classify_score, THRESHOLDS, classifyAux]
    rw [if_neg (show ¬((0 : ℚ) ≤ score ∧ score ≤ 40) from fun hh => by
        rcases h with h | h <;> linarith [hh.1, hh.2]),
      if_neg (show ¬((40 : ℚ) ≤ score ∧ score ≤ 60) from fun hh => by
        rcases h with h | h <;> linarith [hh.1, hh.2]),
      if_neg (show ¬((60 : ℚ) ≤ score ∧ score ≤ 75) from fun hh => by
        rcases h with h | h <;> linarith [hh.1, hh.2]),
      if_neg (show ¬((75 : ℚ) ≤ score ∧ score ≤ 90) from fun hh => by
        rcases h with h | h <;> linarith [hh.1, hh.2]),
      if_neg (show ¬((90 : ℚ) ≤ score ∧ score ≤ 100) from fun hh => by
        rcases h with h | h <;> linarith [hh.1, hh.2])]
  refine ⟨hU, ?_⟩
  intro perf s hs hval
  have hempty : ¬(dictKeys perf).isEmpty = true := by
    rw [List.isEmpty_iff]
    exact List.ne_nil_of_mem hs
  obtain ⟨hcls, hweak, hstrong⟩ := detGenerate_fields perf none hempty
  refine ⟨?_, ?_, ?_⟩
  · rw [hcls]
    have hfs : (fun s => (s, classify_score (dictGetD perf s 0))) s = (s, "Unknown") := by
      show (s, classify_score (dictGetD perf s 0)) = (s, "Unknown")
      rw [hval, hU]
    rw [← hfs]
    exact List.mem_map_of_mem _ hs
  · rw [hweak]
    intro hmem
    have := (List.mem_filter.mp hmem).2
    rw [hval, hU] at this
    exact absurd this (by decide)
  · rw [hstrong]
    intro hmem
    have := (List.mem_filter.mp hmem).2
    rw [hval, hU] at this
    exact absurd this (by decide)

theorem C10_classify_out_of_range_witness :
    ((150 : ℚ) < 0 ∨ 100 < (150 : ℚ)) ∧
    classify_score 150 = "Unknown" ∧
    ("Polity", "Unknown") ∈ detClassification (detGenerate [("Polity", 150)] none) ∧
    "Polity" ∉ detWeak (detGenerate [("Polity", 150)] none) ∧
    "Polity" ∉ detStrong (detGenerate [("Polity", 150)] none) := by
  have h := C10_classify_out_of_range 150 (Or.inr (by norm_num))
  obtain ⟨h1, h2, h3⟩ := h.2 [("Polity", 150)] "Polity" (by decide) (by decide)
  exact ⟨Or.inr (by norm_num), h.1, h1, h2, h3⟩

/-! ### `generate`: remote enrichment with deterministic fallback -/

/-- `_normalize_section(subject)`: first configured section whose aliases
contain the (stripped) subject, defaulting to `"polity"`. -/
def findSection : Dict SectionMeta → String → Option String
  | [], _ => none
  | (key, meta) :: rest, subject =>
    if subject ∈ meta.aliases then some key else findSection rest subject

def normalizeSection (subject : Option String) : String :=
  (findSection SECTION_CONFIG (pyStrip (subject.getD ""))).getD "polity"

/-- `_to_display_key(key)`. -/
def toDisplayKey (key : String) : String :=
  let key := pyStrip key
  if (SECTION_CONFIG.map (fun p => p.2.label)).contains key then key
  else sectionLabel (normalizeSection (some key))

/-- `_normalize_performance(raw)` (a `float(...)` of a rational never
raises, so no entry is skipped). -/
def normalizePerformance (raw : ScoreMap) : ScoreMap :=
  raw.foldl (fun acc p => dictInsert acc (toDisplayKey p.1) p.2) []

/-- `_extract_scores_from_report(report_doc)`. -/
def extractScoresFromReport : Option PrevReportDoc → ScoreMap
  | none => []
  | some doc =>
    doc.sectionReport.foldl (fun acc p =>
      let label := (p.2.label).getD
        ((SECTION_CONFIG.lookup p.1).elim (pyTitle p.1) SectionMeta.label)
      dictInsert acc label ((p.2.accuracy).getD 0)) []

/-- A parsed remote response: a JSON object, some other JSON value, or the
`{"text": raw}` wrapper `_call_llm` builds when JSON parsing fails (that
wrapper dict is non-empty, hence always truthy). -/
inductive LLMResp
  | jsonDict (entries : Dict String)
  | jsonOther (truthy : Bool)
  | wrappedText (raw : String)
deriving DecidableEq

/-- Outcome of one `_call_llm` invocation: an escaped exception (network
error, bad status, …) or a parsed value. -/
inductive LLMOutcome
  | raised
  | value (resp : LLMResp)
deriving DecidableEq

def llmTruthy : LLMResp → Bool
  | .jsonDict entries => !entries.isEmpty
  | .jsonOther truthy => truthy
  | .wrappedText _ => true

/-- Environment of `generate`: the configured credential, the remote call
outcome per prompt, and the `reports`-store query for the most recent
report (a store `PyMongoError` is caught and folded into `none`). -/
structure PlanEnv where
  apiKey : Option String
  llm : String → LLMOutcome
  findReport : Option String → Option String → Option PrevReportDoc

/-- `_fetch_previous_report(user_email=..., user_id=...)`. -/
def fetchPreviousReport (env : PlanEnv) (userEmail userId : Option String) :
    Option PrevReportDoc :=
  if userEmail = none ∧ userId = none then none
  else env.findReport userEmail userId

/-- `f"{delta:+.2f}"`. -/
def deltaFmtPlus2 (q : ℚ) : String :=
  let sign := if q < 0 then "-" else "+"
  let scaled := rhe (|q| * 100)
  sign ++ natToStr (scaled / 100).toNat ++ "." ++ pad2 (scaled % 100).toNat

/-- `_build_prompt(performance, comparison)`. -/
def buildPrompt (performance : ScoreMap) (comparison : Option Comparison) : String :=
  let lines := ["You are a UPSC mentor. Generate a planner based on the performance:"]
    ++ performance.map (fun p => p.1 ++ ": " ++ ratToStr p.2)
    ++ (match comparison with
        | some c =>
          if !c.sections.isEmpty then
            ["Previous attempt snapshot (use this to note improvements/regressions):"]
            ++ c.sections.map (fun e =>
                e.label ++ ": previous " ++ ratToStr e.previous ++ "%, current "
                  ++ ratToStr e.current ++ "% (delta " ++ deltaFmtPlus2 e.delta
                  ++ " pts, " ++ e.status ++ ").")
            ++ ["Highlight what improved, what declined, and prescribe concrete remediation for downgraded sections."]
          else []
        | none => [])
    ++ ["Identify weak vs strong sections, give reasons, 7-day micro plan, 30-day roadmap, resources, daily cadence, and PYQ approach."]
  String.intercalate "\n" lines

/-- The value `generate` returns: the enriched remote payload (with the
comparison attached) or the deterministic fallback plan. -/
inductive GenResult
  | llm (resp : LLMResp) (comparison : Option Comparison)
  | fallback (plan : DetResult)
deriving DecidableEq

/-- `generate(performance, user_id, user_email)`.  Every fallible step of
the source is wrapped (`except Exception: pass` around the LLM call, a
PyMongoError handler in the report fetch), so the model is total: a remote
failure can only surface as the deterministic fallback plan. -/
def generate (env : PlanEnv) (performance : ScoreMap) (userId userEmail : Option String) :
    GenResult :=
  let displayPerf := normalizePerformance performance
  let previousDoc := fetchPreviousReport env userEmail userId
  let previousScores := extractScoresFromReport previousDoc
  let comparison := buildComparison displayPerf previousScores previousDoc
  let prompt := buildPrompt displayPerf comparison
  match env.apiKey with
  | some _ =>
    match env.llm prompt with
    | .raised => .fallback (detGenerate displayPerf comparison)
    | .value resp =>
      if llmTruthy resp then .llm resp comparison
      else .fallback (detGenerate displayPerf comparison)
  | none => .fallback (detGenerate displayPerf comparison)

theorem foldl_dictInsert_ne_nil {α : Type} (f : String × α → String) (g : String × α → α)
    (t : List (String × α)) :
    ∀ m : Dict α, m ≠ [] → t.foldl (fun acc p => dictInsert acc (f p) (g p)) m ≠ [] := by
  induction t with
  | nil => intro m hm; exact hm
  | cons p t ih =>
    intro m hm
    rw [List.foldl_cons]
    exact ih _ (dictInsert_ne_nil _ _ _)

theorem normalizePerformance_ne_nil (raw : ScoreMap) (h : raw ≠ []) :
    normalizePerformance raw ≠ [] := by
  unfold normalizePerformance
  cases raw with
  | nil => exact absurd rfl h
  | cons p t =>
    rw [List.foldl_cons]
    exact foldl_dictInsert_ne_nil (fun p => toDisplayKey p.1) (fun p => p.2) t _
      (dictInsert_ne_nil _ _ _)

theorem detGenerate_plan_populated (perf : ScoreMap) (comparison : Option Comparison)
    (h : ¬(dictKeys perf).isEmpty = true) :
    ∃ plan, detGenerate perf comparison = .plan plan ∧
      plan.seven_day_plan.length = 7 ∧ plan.thirty_day_plan.length = 4 ∧
      plan.seven_day_plan ≠ [] ∧ plan.thirty_day_plan ≠ [] := by
  unfold detGenerate
  rw [if_neg h]
  exact ⟨_, rfl, rfl, rfl, by simp, by simp⟩

/-- C5: `generate` always returns a plan (its type has no error outcome
because every remote failure is caught in the source): with no credential
or a raising remote call the caller gets the deterministic fallback; an
empty performance mapping then yields the explicit "no data" plan; and with
no credential and no stored history a non-empty mapping yields a fully
populated deterministic plan with a 7-entry 7-day plan and a 4-entry 4-week
roadmap. -/
theorem C5_generate_always_plan (env : PlanEnv) (performance : ScoreMap)
    (userId userEmail : Option String) :
    (env.apiKey = none ∨ (∀ p, env.llm p = .raised) →
      ∃ d, generate env performance userId userEmail = .fallback d) ∧
    (performance = [] → env.apiKey = none ∨ (∀ p, env.llm p = .raised) →
      generate env performance userId userEmail
        = .fallback (.noData "No performance data provided.")) ∧
    (env.apiKey = none → (∀ e u, env.findReport e u = none) → performance ≠ [] →
      ∃ plan, generate env performance userId userEmail = .fallback (.plan plan) ∧
        plan.seven_day_plan.length = 7 ∧ plan.thirty_day_plan.length = 4 ∧
        plan.seven_day_plan ≠ [] ∧ plan.thirty_day_plan ≠ []) := by
  refine ⟨?_, ?_, ?_⟩
  · intro hfail
    unfold generate
    dsimp only
    rcases hfail with hkey | hllm
    · rw [hkey]
      exact ⟨_, rfl⟩
    · cases hkey2 : env.apiKey with
      | none => exact ⟨_, rfl⟩
      | some k =>
        rw [hllm]
        exact ⟨_, rfl⟩
  · intro hperf hfail
    subst hperf
    unfold generate
    dsimp only
    rcases hfail with hkey | hllm
    · rw [hkey]
      rfl
    · cases hkey2 : env.apiKey with
      | none => rfl
      | some k =>
        rw [hllm]
        rfl
  · intro hkey hnorep hperfne
    have hdoc : fetchPreviousReport env userEmail userId = none := by
      unfold fetchPreviousReport
      split_ifs
      · rfl
      · exact hnorep _ _
    have hdisp : normalizePerformance performance ≠ [] :=
      normalizePerformance_ne_nil _ hperfne
    have hkeysne : ¬(dictKeys (normalizePerformance performance)).isEmpty = true := by
      rw [List.isEmpty_iff]
      intro hk
      rw [dictKeys, List.map_eq_nil_iff] at hk
      exact hdisp hk
    obtain ⟨plan, hplan, h7, h4, h7n, h4n⟩ :=
      detGenerate_plan_populated (normalizePerformance performance) none hkeysne
    refine ⟨plan, ?_, h7, h4, h7n, h4n⟩
    simp only [generate]
    rw [hkey, hdoc]
    rw [show buildComparison (normalizePerformance performance)
        (extractScoresFromReport none) none = none from rfl, hplan]

theorem C5_generate_always_plan_witness :
    ∃ plan,
      generate ⟨none, fun _ => .raised, fun _ _ => none⟩ [("Polity", 35)] none none
        = .fallback (.plan plan) ∧
      plan.seven_day_plan.length = 7 ∧ plan.thirty_day_plan.length = 4 ∧
      plan.seven_day_plan ≠ [] ∧ plan.thirty_day_plan ≠ [] :=
  (C5_generate_always_plan ⟨none, fun _ => .raised, fun _ _ => none⟩ [("Polity", 35)]
    none none).2.2 rfl (fun _ _ => rfl) (by decide)

/-! ### Test composition (`prepare_test`) -/

/-- A raw question document of the `questions` collection. -/
structure StoreQuestion where
  oid : String
  question_id : Option String
  subject : Option String
  topic : Option String
  difficulty : Option String
  question : Option String
  options : List (String × String)
  correct_answer : Option String
deriving DecidableEq

/-- Environment of `prepare_test`: store availability, per-section counts
and samples (`count_documents` / `$sample` over the alias set), the
`random.shuffle` permutation and the `random.randint(0, 999)` fallback
start offsets. -/
structure TestEnv where
  freshId : String
  dbOk : Bool
  countDocs : String → ℕ
  sampleDocs : String → ℕ → List StoreQuestion
  shuffle : List StoreQuestion → List StoreQuestion
  startIndex : String → ℕ

/-- The question payload the DB path builds (it never writes a
`correct_answer` key). -/
def dbTestQuestion (sectionKey label : String) (doc : StoreQuestion) : TestQuestion :=
  { question_id := (doc.question_id).getD doc.oid,
    sectionKey := sectionKey,
    section_label := label,
    subject := doc.subject,
    topic := doc.topic,
    difficulty := doc.difficulty,
    question := doc.question,
    options := doc.options,
    correct_answer := none }

structure SectionPayload where
  label : String
  questions : List TestQuestion
deriving DecidableEq

structure TestPayload where
  test_id : String
  questions_per_section : ℕ
  total_questions : ℕ
  sections : List (String × SectionPayload)
deriving DecidableEq

/-- `_prepare_test_from_db`; an `.error` is a raised `PyMongoError` or
`ValueError` (insufficient bank). -/
def prepareTestFromDb (env : TestEnv) (n : ℕ) :
    Except String (List (String × SectionPayload)) :=
  if ¬env.dbOk then .error "PyMongoError"
  else
    SECTION_ORDER.mapM (fun sectionKey =>
      let label := sectionLabel sectionKey
      if env.countDocs sectionKey < n then
        .error ("Not enough questions for section " ++ label)
      else
        let docs := env.shuffle (env.sampleDocs sectionKey n)
        .ok (sectionKey, SectionPayload.mk label (docs.map (dbTestQuestion sectionKey label))))

/-- `_prepare_test_from_mock`. -/
def prepareTestFromMock (env : TestEnv) (n : ℕ) :
    Except String (List (String × SectionPayload)) :=
  SECTION_ORDER.mapM (fun sectionKey =>
    match MOCK_SECTION_BLUEPRINTS.lookup sectionKey with
    | none => .error ("No mock question blueprints configured for section \x27"
        ++ sectionKey ++ "\x27")
    | some bps =>
      if bps.isEmpty then
        .error ("No mock question blueprints configured for section \x27"
          ++ sectionKey ++ "\x27")
      else
        .ok (sectionKey, SectionPayload.mk (sectionLabel sectionKey)
          ((List.range n).map (fun offset =>
            mockDocCore sectionKey (sectionLabel sectionKey) bps
              (env.startIndex sectionKey + offset) false))))

/-- `prepare_test(questions_per_section)`: a non-positive count raises
before any store access; any DB-path failure falls back wholesale to the
deterministic mock path. -/
def prepare_test (env : TestEnv) (questionsPerSection : ℤ) : Except String TestPayload :=
  if questionsPerSection ≤ 0 then .error "questions_per_section must be positive"
  else
    let n := questionsPerSection.toNat
    let assemble := fun (secs : List (String × SectionPayload)) =>
      TestPayload.mk env.freshId n
        (secs.foldl (fun acc p => acc + p.2.questions.length) 0) secs
    match prepareTestFromDb env n with
    | .ok secs => .ok (assemble secs)
    | .error _ => (prepareTestFromMock env n).map assemble

theorem mapM_except_ok {α β : Type} (f : α → Except String β) :
    ∀ (l : List α) (ys : List β), l.mapM f = .ok ys →
      ys.length = l.length ∧ ∀ y ∈ ys, ∃ x ∈ l, f x = .ok y := by
  intro l
  induction l with
  | nil =>
    intro ys h
    rw [List.mapM_nil] at h
    cases h
    exact ⟨rfl, by simp⟩
  | cons x t ih =>
    intro ys h
    rw [List.mapM_cons] at h
    cases hfx : f x with
    | error e =>
      rw [hfx] at h
      simp only [bind, Except.bind] at h
      cases h
    | ok y =>
      rw [hfx] at h
      cases hmt : t.mapM f with
      | error e =>
        rw [hmt] at h
        simp only [bind, Except.bind] at h
        cases h
      | ok ys2 =>
        rw [hmt] at h
        simp only [bind, Except.bind, pure, Except.pure] at h
        cases h
        obtain ⟨hlen, hmem⟩ := ih ys2 hmt
        refine ⟨by simp [hlen], ?_⟩
        intro y2 hy2
        rcases List.mem_cons.mp hy2 with rfl | hy2
        · exact ⟨x, List.mem_cons_self x t, hfx⟩
        · obtain ⟨x2, hx2, hfx2⟩ := hmem y2 hy2
          exact ⟨x2, List.mem_cons_of_mem x hx2, hfx2⟩

theorem prepareTestFromMock_ok (env : TestEnv) (n : ℕ) :
    ∃ secs, prepareTestFromMock env n = .ok secs ∧ secs.length = 7 ∧
      ∀ sp ∈ secs, sp.2.questions.length = n ∧
        ∀ q ∈ sp.2.questions, q.correct_answer = none := by
  obtain ⟨secs, hsecs⟩ : ∃ secs, prepareTestFromMock env n = .ok secs := ⟨_, rfl⟩
  have hsecs2 := hsecs
  unfold prepareTestFromMock at hsecs2
  obtain ⟨hlen, hmem⟩ := mapM_except_ok _ SECTION_ORDER secs hsecs2
  refine ⟨secs, hsecs, by rw [hlen]; rfl, ?_⟩
  intro sp hsp
  obtain ⟨s, -, hf⟩ := hmem sp hsp
  cases hlook : MOCK_SECTION_BLUEPRINTS.lookup s with
  | none =>
    simp only [hlook] at hf
    cases hf
  | some bps =>
    simp only [hlook] at hf
    by_cases hemp : bps.isEmpty = true
    · rw [if_pos hemp] at hf
      cases hf
    · rw [if_neg hemp] at hf
      cases hf
      refine ⟨by simp, ?_⟩
      intro q hq
      rcases List.mem_map.mp hq with ⟨off, -, rfl⟩
      rfl

/-- C2: for every environment in which `$sample` returns the requested
number of documents when enough are available and `shuffle` preserves
length, `prepare_test` with `n > 0` returns exactly 7 sections each holding
exactly `n` questions, none carrying a correct-answer value (on both the
live-bank and the fallback path); with `n ≤ 0` it returns the invalid-input
error before touching the store, for every environment. -/
theorem C2_prepare_test_shape (env : TestEnv) (k : ℤ)
    (hsample : ∀ s n, n ≤ env.countDocs s → (env.sampleDocs s n).length = n)
    (hshuffle : ∀ l, (env.shuffle l).length = l.length) :
    (k ≤ 0 → prepare_test env k = .error "questions_per_section must be positive") ∧
    (0 < k → ∃ t, prepare_test env k = .ok t ∧
      t.sections.length = 7 ∧
      ∀ sp ∈ t.sections, sp.2.questions.length = k.toNat ∧
        ∀ q ∈ sp.2.questions, q.correct_answer = none) := by
  constructor
  · intro h
    unfold prepare_test
    rw [if_pos h]
  · intro hk
    unfold prepare_test
    rw [if_neg (not_le.mpr hk)]
    dsimp only
    cases hdb : prepareTestFromDb env k.toNat with
    | ok secs =>
      refine ⟨_, rfl, ?_, ?_⟩
      · unfold prepareTestFromDb at hdb
        by_cases hdbok : env.dbOk
        · rw [if_neg (by simpa using hdbok)] at hdb
          exact (mapM_except_ok _ SECTION_ORDER secs hdb).1
        · rw [if_pos (by simpa using hdbok)] at hdb
          cases hdb
      · intro sp hsp
        unfold prepareTestFromDb at hdb
        by_cases hdbok : env.dbOk
        · rw [if_neg (by simpa using hdbok)] at hdb
          obtain ⟨-, hmem⟩ := mapM_except_ok _ SECTION_ORDER secs hdb
          obtain ⟨sectionKey, -, hf⟩ := hmem sp hsp
          by_cases hcount : env.countDocs sectionKey < k.toNat
          · rw [if_pos hcount] at hf
            cases hf
          · rw [if_neg hcount] at hf
            cases hf
            constructor
            · rw [List.length_map, hshuffle, hsample _ _ (not_lt.mp hcount)]
            · intro q hq
              rcases List.mem_map.mp hq with ⟨doc, -, rfl⟩
              rfl
        · rw [if_pos (by simpa using hdbok)] at hdb
          cases hdb
    | error e =>
      obtain ⟨secs, hmock, hlen, hprops⟩ := prepareTestFromMock_ok env k.toNat
      rw [hmock]
      exact ⟨_, rfl, hlen, hprops⟩

theorem C2_prepare_test_shape_witness :
    ∃ t, prepare_test ⟨"tid", false, fun _ => 0, fun _ _ => [], id, fun _ => 0⟩ 2 = .ok t ∧
      t.sections.length = 7 ∧
      ∀ sp ∈ t.sections, sp.2.questions.length = (2 : ℤ).toNat ∧
        ∀ q ∈ sp.2.questions, q.correct_answer = none :=
  (C2_prepare_test_shape ⟨"tid", false, fun _ => 0, fun _ _ => [], id, fun _ => 0⟩ 2
    (fun s n h => by
      have hn : n = 0 := Nat.le_zero.mp h
      subst hn
      rfl) (fun l => rfl)).2 (by norm_num)

/-! ### Submission evaluation (`evaluate_test`) -/

/-- The projected fields of a question used for grading. -/
structure GradeDoc where
  subject : Option String
  topic : Option String
  difficulty : Option String
  question : Option String
  options : List (String × String)
  correct_answer : Option String
deriving DecidableEq

def storeGradeDoc (doc : StoreQuestion) : GradeDoc :=
  ⟨doc.subject, doc.topic, doc.difficulty, doc.question, doc.options, doc.correct_answer⟩

def mockGradeDoc (doc : TestQuestion) : GradeDoc :=
  ⟨doc.subject, doc.topic, doc.difficulty, doc.question, doc.options, doc.correct_answer⟩

/-- `bson.ObjectId.is_valid` on a string: exactly 24 hex characters. -/
def isValidOid (s : String) : Bool :=
  s.data.length == 24 && s.data.all (fun c =>
    c.isDigit || (('a' : Char) ≤ c && c ≤ 'f') || (('A' : Char) ≤ c && c ≤ 'F'))

/-- A document of the `users` collection. -/
structure UserDoc where
  oid : String
  name : Option String
  email : Option String
  phoneNumber : Option String
  testScores : List HistEntry
deriving DecidableEq

/-- Environment of `evaluate_test`: the `questions` store and its
availability, the `_find_user` resolution (an opaque ObjectId/email/phone
store query), write availability, the clock, the external weekly-schedule
builder, and the planner environment.

`buildSchedule` — Modelled from the spec: the weekly-schedule builder
(`LLMSchedulePlanner.build_schedule_from_percentages`) is invoked by
`evaluate_test` but not defined in the available sources; the spec treats
it as an external collaborator, so it is an opaque function of the
percentage scores. -/
structure EvalEnv where
  questionsDb : List StoreQuestion
  dbFindOk : Bool
  userQuery : String → Option UserDoc
  persistOk : Bool
  now : ℕ
  buildSchedule : ScoreMap → List (String × String)
  planEnv : PlanEnv
  reportInsertOk : Bool
  reportId : String

/-- Whether a stored question matches the batched grading query
(`question_id` among the non-ObjectId keys, or `_id` among the ObjectId
keys). -/
def questionMatchesQuery (qidKeys oidKeys : List String) (doc : StoreQuestion) : Bool :=
  (match doc.question_id with
   | some q => qidKeys.contains q
   | none => false) || oidKeys.contains doc.oid

/-- The `question_map` construction of `evaluate_test`: a single batched
lookup of the non-mock identifiers (each found document keyed under both
its application `question_id` and its store `_id`), then in-process
reconstruction of the `mock-` identifiers; `.error` is the ValueError
raised when the store find fails. -/
def buildQuestionMap (env : EvalEnv) (questionIds : List String) :
    Except String (Dict GradeDoc) :=
  let mockIds := questionIds.filter (fun qid => isPrefixList "mock-".data qid.data)
  let dbIds := questionIds.filter (fun qid => !mockIds.contains qid)
  let qidKeys := dbIds.filter (fun qid => !isValidOid qid)
  let oidKeys := dbIds.filter (fun qid => isValidOid qid)
  let addMocks := fun (m : Dict GradeDoc) => mockIds.foldl (fun m qid =>
      match mockQuestionFromId qid with
      | some doc => dictInsert m qid (mockGradeDoc doc)
      | none => m) m
  if qidKeys.isEmpty && oidKeys.isEmpty then .ok (addMocks [])
  else if ¬env.dbFindOk then .error "Unable to load questions from database"
  else
    let dbDocs := env.questionsDb.filter (questionMatchesQuery qidKeys oidKeys)
    let withDb := dbDocs.foldl (fun m doc =>
      let m1 := match doc.question_id with
        | some q => dictInsert m q (storeGradeDoc doc)
        | none => m
      dictInsert m1 doc.oid (storeGradeDoc doc)) []
    .ok (addMocks withDb)

structure ReviewEntry where
  question_id : String
  sectionKey : String
  section_label : String
  question : Option String
  topic : Option String
  difficulty : Option String
  selected_answer : String
  correct_answer : String
deriving DecidableEq

structure SectionStats where
  total : ℕ
  correct : ℕ
  review : List ReviewEntry
deriving DecidableEq

structure SectionReport where
  label : String
  total : ℕ
  correct : ℕ
  accuracy : ℚ
  incorrect_questions : List ReviewEntry
deriving DecidableEq

structure PersistInfo where
  saved : Bool
  message : String
deriving DecidableEq

/-- A store write performed during evaluation. -/
inductive StoreEffect
  | scoreAppend (userOid : String) (entry : HistEntry)
  | reportInsert (reportId : String)
deriving DecidableEq

structure ReportStorage where
  saved : Bool
  report_id : Option String
deriving DecidableEq

structure PublicUser where
  id : Option String
  name : Option String
  email : Option String
  phoneNumber : Option String
deriving DecidableEq

structure TestSummary where
  total_questions : ℕ
  total_correct : ℕ
  overall_accuracy : ℚ
deriving DecidableEq

/-- `_public_user_payload`. -/
def publicUserPayload : Option UserDoc → Option String → PublicUser
  | none, fallbackId => ⟨fallbackId, none, none, none⟩
  | some user, _ => ⟨some user.oid, user.name, user.email, user.phoneNumber⟩

/-- `_persist_score(user_id, scores)`: the (possibly refreshed) user
document, the persistence info, and the store append effect. -/
def persistScore (env : EvalEnv) (userId : Option String) (scores : ScoreMap) :
    Option UserDoc × PersistInfo × List StoreEffect :=
  match userId with
  | none => (none, ⟨false, "user_id not supplied — result not persisted"⟩, [])
  | some uid =>
    match env.userQuery uid with
    | none => (none, ⟨false, "user \x27" ++ uid ++ "\x27 not found in database"⟩, [])
    | some user =>
      let sectionsPayload := SECTION_ORDER.map (fun k =>
        (k, round2 (dictGetD scores (sectionLabel k) 0)))
      let entry : HistEntry := ⟨env.now, sectionsPayload⟩
      if env.persistOk then
        (some { user with testScores := user.testScores ++ [entry] },
          ⟨true, "Result stored successfully"⟩, [.scoreAppend user.oid entry])
      else (some user, ⟨false, "Failed to persist result"⟩, [])

/-- `_load_history(user_doc)`: snapshots sorted by date, last 5 surfaced. -/
def loadHistory : Option UserDoc → History
  | none => ⟨false, []⟩
  | some user =>
    let sorted := user.testScores.mergeSort (fun a b => decide (a.date ≤ b.date))
    let lastFive := sorted.drop (sorted.length - 5)
    ⟨!lastFive.isEmpty, lastFive⟩

/-- The full payload `evaluate_test` returns (the derived
`study_plan_sections` projection of `study_plan` is omitted); `effects`
records every store write performed. -/
structure EvalResult where
  user : PublicUser
  test_summary : TestSummary
  section_report : List (String × SectionReport)
  feedback : Feedback
  study_plan : GenResult
  history : History
  weekly_schedule : List (String × String)
  persistence : PersistInfo
  report_storage : ReportStorage
  effects : List StoreEffect
deriving DecidableEq

/-- `evaluate_test(user_id, answers)`; the answers dict is an ordered
association list, an `.error` is a raised ValueError.  All store writes
appear in the success payload's `effects`, so an `.error` result performs
none: a rejected submission is atomic (zero sections scored, no score and
no report persisted). -/
def evaluate_test (env : EvalEnv) (userId : Option String)
    (answers : List (String × String)) : Except String EvalResult :=
  if answers.isEmpty then .error "answers payload cannot be empty"
  else
    match buildQuestionMap env (dictKeys answers) with
    | .error e => .error e
    | .ok questionMap =>
      let missing := (dictKeys answers).filter (fun qid => !(questionMap.lookup qid).isSome)
      if !missing.isEmpty then .error "Unknown question_ids supplied"
      else
        let gradeState := answers.foldl (fun st p =>
          match questionMap.lookup p.1 with
          | none => st
          | some doc =>
            let sectionKey := normalizeSection doc.subject
            let label := sectionLabel sectionKey
            let correctOption := pyUpper (pyStrip ((doc.correct_answer).getD "None"))
            let chosen := pyUpper (pyStrip p.2)
            let cur := (st.1.lookup sectionKey).getD ⟨0, 0, []⟩
            if chosen = correctOption then
              (dictInsert st.1 sectionKey ⟨cur.total + 1, cur.correct + 1, cur.review⟩,
                st.2.1 + 1, st.2.2 + 1)
            else
              (dictInsert st.1 sectionKey ⟨cur.total + 1, cur.correct,
                cur.review ++ [⟨p.1, sectionKey, label, doc.question, doc.topic,
                  doc.difficulty, chosen, correctOption⟩]⟩,
                st.2.1, st.2.2 + 1))
          (([] : Dict SectionStats), (0 : ℕ), (0 : ℕ))
        let stats := gradeState.1
        let totalCorrect := gradeState.2.1
        let totalQuestions := gradeState.2.2
        let accuracyOf := fun (s : SectionStats) =>
          if s.total = 0 then (0 : ℚ) else round2 ((s.correct : ℚ) / (s.total : ℚ) * 100)
        let sectionReport := SECTION_ORDER.map (fun key =>
          let s := (stats.lookup key).getD ⟨0, 0, []⟩
          (key, SectionReport.mk (sectionLabel key) s.total s.correct (accuracyOf s) s.review))
        let percentageScores : ScoreMap := SECTION_ORDER.map (fun key =>
          (sectionLabel key, accuracyOf ((stats.lookup key).getD ⟨0, 0, []⟩)))
        let overall := if totalQuestions = 0 then (0 : ℚ)
          else round2 ((totalCorrect : ℚ) / (totalQuestions : ℚ) * 100)
        let (userDoc, persisted, effects1) := persistScore env userId percentageScores
        let userEmail := userDoc.bind UserDoc.email
        let history := loadHistory userDoc
        let feedback := buildFeedback history percentageScores
        let schedulePayload := env.buildSchedule percentageScores
        let studyPlan := generate env.planEnv percentageScores userId userEmail
        let reportStorage := if env.reportInsertOk
          then (ReportStorage.mk true (some env.reportId),
            [StoreEffect.reportInsert env.reportId])
          else (ReportStorage.mk false none, [])
        .ok
          { user := publicUserPayload userDoc userId
            test_summary := ⟨totalQuestions, totalCorrect, overall⟩
            section_report := sectionReport
            feedback := feedback
            study_plan := studyPlan
            history := history
            weekly_schedule := schedulePayload
            persistence := persisted
            report_storage := reportStorage.1
            effects := effects1 ++ reportStorage.2 }

/-- C3: `evaluate_test` raises on an empty answers mapping, and raises on
any submitted identifier that resolves to no known question (no live-bank
document matched the batched query and the identifier is not a
reconstructible `mock-` id): the result is then an `Except.error`, whose
type carries no payload and no store effects — zero sections are scored
and neither a score snapshot nor a report is persisted.  Conversely a
successful result implies every submitted identifier resolved. -/
theorem C3_evaluate_rejects (env : EvalEnv) (userId : Option String)
    (answers : List (String × String)) :
    (answers = [] →
      evaluate_test env userId answers = .error "answers payload cannot be empty") ∧
    (∀ qmap, buildQuestionMap env (dictKeys answers) = .ok qmap →
      (∃ qid ∈ dictKeys answers, (qmap.lookup qid).isNone) →
      evaluate_test env userId answers = .error "Unknown question_ids supplied") ∧
    (∀ r, evaluate_test env userId answers = .ok r →
      ∀ qid ∈ dictKeys answers,
        ∃ qmap, buildQuestionMap env (dictKeys answers) = .ok qmap ∧
          (qmap.lookup qid).isSome) := by
  refine ⟨?_, ?_, ?_⟩
  · intro h
    subst h
    rfl
  · intro qmap hq hex
    obtain ⟨qid, hqid, hnone⟩ := hex
    have hne : ¬answers.isEmpty = true := by
      rw [List.isEmpty_iff]
      intro h
      subst h
      simp [dictKeys] at hqid
    unfold evaluate_test
    rw [if_neg hne]
    simp only [hq]
    have hpred : (!(qmap.lookup qid).isSome) = true := by
      cases hcase : qmap.lookup qid with
      | none => rfl
      | some v =>
        rw [hcase] at hnone
        cases hnone
    have hmemQ : qid ∈ (dictKeys answers).filter
        (fun qid => !(qmap.lookup qid).isSome) :=
      List.mem_filter.mpr ⟨hqid, hpred⟩
    have hmiss : ((dictKeys answers).filter
        (fun qid => !(qmap.lookup qid).isSome)).isEmpty = false := by
      rw [List.isEmpty_eq_false]
      exact List.ne_nil_of_mem hmemQ
    have hcond : (!((dictKeys answers).filter
        (fun qid => !(qmap.lookup qid).isSome)).isEmpty) = true := by
      rw [hmiss]
      rfl
    rw [if_pos hcond]
  · intro r hr qid hqid
    unfold evaluate_test at hr
    by_cases hne : answers.isEmpty = true
    · rw [if_pos hne] at hr
      cases hr
    · rw [if_neg hne] at hr
      cases hbq : buildQuestionMap env (dictKeys answers) with
      | error e =>
        simp only [hbq] at hr
        cases hr
      | ok qmap =>
        simp only [hbq] at hr
        by_cases hmiss : ((dictKeys answers).filter
            (fun qid => !(qmap.lookup qid).isSome)).isEmpty = true
        · refine ⟨qmap, rfl, ?_⟩
          rw [List.isEmpty_iff] at hmiss
          have hnotpred : ¬(!(qmap.lookup qid).isSome) = true := by
            intro hpred
            have hinmem : qid ∈ (dictKeys answers).filter
                (fun qid => !(qmap.lookup qid).isSome) :=
              List.mem_filter.mpr ⟨hqid, hpred⟩
            rw [hmiss] at hinmem
            exact absurd hinmem (List.not_mem_nil qid)
          simpa using hnotpred
        · have hcond : (!((dictKeys answers).filter
              (fun qid => !(qmap.lookup qid).isSome)).isEmpty) = true := by
            cases hc : ((dictKeys answers).filter
                (fun qid => !(qmap.lookup qid).isSome)).isEmpty
            · rfl
            · exact absurd hc hmiss
          rw [if_pos hcond] at hr
          cases hr

theorem C3_evaluate_rejects_witness :
    evaluate_test
      ⟨[], true, fun _ => none, true, 0, fun _ => [],
        ⟨none, fun _ => .raised, fun _ _ => none⟩, true, "rid"⟩
      (some "user-1") [] = .error "answers payload cannot be empty" ∧
    evaluate_test
      ⟨[], true, fun _ => none, true, 0, fun _ => [],
        ⟨none, fun _ => .raised, fun _ _ => none⟩, true, "rid"⟩
      (some "user-1") [("x", "A")] = .error "Unknown question_ids supplied" :=
  ⟨(C3_evaluate_rejects
      ⟨[], true, fun _ => none, true, 0, fun _ => [],
        ⟨none, fun _ => .raised, fun _ _ => none⟩, true, "rid"⟩
      (some "user-1") []).1 rfl,
   (C3_evaluate_rejects
      ⟨[], true, fun _ => none, true, 0, fun _ => [],
        ⟨none, fun _ => .raised, fun _ _ => none⟩, true, "rid"⟩
      (some "user-1") [("x", "A")]).2.1 [] rfl ⟨"x", by decide, by decide⟩⟩

end Planner
